import Mathlib

/-!
# Verification of the secp256k1 field and point arithmetic

This file is a shallow embedding, in Lean 4, of the Go package
`github.com/wdvxdr1123/secp256k1`: a constant-time implementation of
field and group arithmetic on the secp256k1 curve, with the field
represented as four 64-bit limbs in Montgomery form.

The embedding mirrors the Go source: `bits.Mul64` / `bits.Add64` /
`bits.Sub64` become explicit arithmetic on `Nat` with `% 2^64`, field
elements become a structure of four `Nat` limbs, points become a
structure of three elements, and fallible operations return `Option`.
Loops become folds or explicit recursion.  In-place updates through a
receiver pointer are made explicit where they matter (the `Point.Double`
of the `Point` API writes its result into its operand; this is modelled
faithfully).

Theorems then relate the limb-level code to its mathematical meaning:
values of elements as integers mod p, the Montgomery representation map,
and the curve equation in projective coordinates.
-/

namespace Secp

/-- 2^64, the limb radix. -/
def W : Nat := 18446744073709551616

/-- Low 64 bits of a 128-bit product: the second result of Go `bits.Mul64`. -/
def mul64Lo (a b : Nat) : Nat := a * b % W

/-- High 64 bits of a 128-bit product: the first result of Go `bits.Mul64`. -/
def mul64Hi (a b : Nat) : Nat := a * b / W

/-- Sum output of Go `bits.Add64 a b c` (c is the carry in). -/
def add64 (a b c : Nat) : Nat := (a + b + c) % W

/-- Carry output of Go `bits.Add64 a b c`. -/
def add64c (a b c : Nat) : Nat := (a + b + c) / W

/-- Difference output of Go `bits.Sub64 a b c` (c is the borrow in). -/
def sub64 (a b c : Nat) : Nat := (W + a - (b + c)) % W

/-- Borrow output of Go `bits.Sub64 a b c`: 1 exactly when `a - b - c`
underflows. -/
def sub64b (a b c : Nat) : Nat := 1 - (W + a - (b + c)) / W

/-- `cmovznz` from the generated fiat code: a single-word conditional move,
`out = (if arg1 = 0 then arg2 else arg3)` for `arg1` in `{0,1}`.
Go `^x` on `uint64` is complement, modelled as xor with `2^64 - 1`. -/
def cmovznz (arg1 arg2 arg3 : Nat) : Nat :=
  let x1 := arg1 * 0xffffffffffffffff % W
  (x1 &&& arg3) ||| ((x1 ^^^ 0xffffffffffffffff) &&& arg2)

/-- A field element: four 64-bit limbs, little-endian significance,
holding the Montgomery form `a·R mod p` with `R = 2^256`
(Go type `Element [4]uint64`). -/
structure Element where
  l0 : Nat
  l1 : Nat
  l2 : Nat
  l3 : Nat
deriving Repr, DecidableEq

/-- The zero value of `Element` (all-zero limbs), Go `new(Element)`. -/
def elemZero : Element := ⟨0, 0, 0, 0⟩

/-- `Element.One`: sets the Montgomery form of 1, whose limbs are
`[0x1000003d1, 0, 0, 0]`. -/
def elemOne : Element := ⟨0x1000003d1, 0, 0, 0⟩

/-- The conditional subtraction of p closing `Element.Add`, `Element.Mul`,
`Element.Square`, `fromMontgomery` and `toMontgomery`: subtract the limbs
of p with borrow from the 4-limb value `a0..a3` with carry bit `a4`, and
select the subtracted limbs branchlessly unless the subtraction
underflowed (source lines `x9`–`x22` of `Element.Add`, and the analogous
tails of the other four routines). -/
def csub4 (a0 a1 a2 a3 a4 : Nat) : Element :=
  let x9 := sub64 a0 0xfffffffefffffc2f 0
  let x10 := sub64b a0 0xfffffffefffffc2f 0
  let x11 := sub64 a1 0xffffffffffffffff x10
  let x12 := sub64b a1 0xffffffffffffffff x10
  let x13 := sub64 a2 0xffffffffffffffff x12
  let x14 := sub64b a2 0xffffffffffffffff x12
  let x15 := sub64 a3 0xffffffffffffffff x14
  let x16 := sub64b a3 0xffffffffffffffff x14
  let x18 := sub64b a4 0 x16
  ⟨cmovznz x18 x9 a0, cmovznz x18 x11 a1, cmovznz x18 x13 a2, cmovznz x18 x15 a3⟩

/-- `Element.Add`: limb-wise add with carry (`x1`–`x8`), then the
conditional subtraction of p. -/
def elemAdd (t1 t2 : Element) : Element :=
  let x1 := add64 t1.l0 t2.l0 0
  let x2 := add64c t1.l0 t2.l0 0
  let x3 := add64 t1.l1 t2.l1 x2
  let x4 := add64c t1.l1 t2.l1 x2
  let x5 := add64 t1.l2 t2.l2 x4
  let x6 := add64c t1.l2 t2.l2 x4
  let x7 := add64 t1.l3 t2.l3 x6
  let x8 := add64c t1.l3 t2.l3 x6
  csub4 x1 x3 x5 x7 x8

/-- `Element.Sub`: limb-wise subtract with borrow, then a masked
conditional add of p. -/
def elemSub (t1 t2 : Element) : Element :=
  let x1 := sub64 t1.l0 t2.l0 0
  let x2 := sub64b t1.l0 t2.l0 0
  let x3 := sub64 t1.l1 t2.l1 x2
  let x4 := sub64b t1.l1 t2.l1 x2
  let x5 := sub64 t1.l2 t2.l2 x4
  let x6 := sub64b t1.l2 t2.l2 x4
  let x7 := sub64 t1.l3 t2.l3 x6
  let x8 := sub64b t1.l3 t2.l3 x6
  let x9 := cmovznz x8 0 0xffffffffffffffff
  let x10 := add64 x1 (x9 &&& 0xfffffffefffffc2f) 0
  let x11 := add64c x1 (x9 &&& 0xfffffffefffffc2f) 0
  let x12 := add64 x3 x9 x11
  let x13 := add64c x3 x9 x11
  let x14 := add64 x5 x9 x13
  let x15 := add64c x5 x9 x13
  let x16 := add64 x7 x9 x15
  ⟨x10, x12, x14, x16⟩

/-- `Element.Select`: sets the result to `a` if `cond = 1` and to `b` if
`cond = 0`, limb by limb through `cmovznz`.  The Go `int` condition is
converted to `uint64`; nonnegative conditions convert to themselves. -/
def elemSelect (a b : Element) (cond : Nat) : Element :=
  ⟨cmovznz cond b.l0 a.l0, cmovznz cond b.l1 a.l1,
   cmovznz cond b.l2 a.l2, cmovznz cond b.l3 a.l3⟩

/-- One partial-product row of `Element.Mul`: the 128-bit products of `x`
with the four limbs of `t`, summed with carries into five limbs
(source lines `x5`–`x19` of `Element.Mul` and the corresponding rows of
the later rounds). -/
def mulRow (x : Nat) (t : Element) : Nat × Nat × Nat × Nat × Nat :=
  let x6 := mul64Hi x t.l3
  let x5 := mul64Lo x t.l3
  let x8 := mul64Hi x t.l2
  let x7 := mul64Lo x t.l2
  let x10 := mul64Hi x t.l1
  let x9 := mul64Lo x t.l1
  let x12 := mul64Hi x t.l0
  let x11 := mul64Lo x t.l0
  let x13 := add64 x12 x9 0
  let x14 := add64c x12 x9 0
  let x15 := add64 x10 x7 x14
  let x16 := add64c x10 x7 x14
  let x17 := add64 x8 x5 x16
  let x18 := add64c x8 x5 x16
  let x19 := x18 + x6
  (x11, x13, x15, x17, x19)

/-- One Montgomery reduction round of `Element.Mul`: compute
`m = a0 · p' mod 2^64`, fold `m·p` into the five-limb accumulator and
drop the (cancelled) low limb (source lines `x20`–`x46` of `Element.Mul`
and the corresponding blocks of the later rounds).  Returns the four
remaining limbs and the carry. -/
def montRed (a0 a1 a2 a3 a4 : Nat) : (Nat × Nat × Nat × Nat) × Nat :=
  let x20 := mul64Lo a0 0xd838091dd2253531
  let x23 := mul64Hi x20 0xffffffffffffffff
  let x22 := mul64Lo x20 0xffffffffffffffff
  let x25 := mul64Hi x20 0xffffffffffffffff
  let x24 := mul64Lo x20 0xffffffffffffffff
  let x27 := mul64Hi x20 0xffffffffffffffff
  let x26 := mul64Lo x20 0xffffffffffffffff
  let x29 := mul64Hi x20 0xfffffffefffffc2f
  let x28 := mul64Lo x20 0xfffffffefffffc2f
  let x30 := add64 x29 x26 0
  let x31 := add64c x29 x26 0
  let x32 := add64 x27 x24 x31
  let x33 := add64c x27 x24 x31
  let x34 := add64 x25 x22 x33
  let x35 := add64c x25 x22 x33
  let x36 := x35 + x23
  let x38 := add64c a0 x28 0
  let x39 := add64 a1 x30 x38
  let x40 := add64c a1 x30 x38
  let x41 := add64 a2 x32 x40
  let x42 := add64c a2 x32 x40
  let x43 := add64 a3 x34 x42
  let x44 := add64c a3 x34 x42
  let x45 := add64 a4 x36 x44
  let x46 := add64c a4 x36 x44
  ((x39, x41, x43, x45), x46)

/-- Adding a partial-product row into the running accumulator in rounds
2–4 of `Element.Mul` (source lines `x62`–`x71` and the corresponding
blocks). -/
def accAdd (b0 b1 b2 b3 b4 r0 r1 r2 r3 r4 : Nat) : (Nat × Nat × Nat × Nat × Nat) × Nat :=
  let x62 := add64 b0 r0 0
  let x63 := add64c b0 r0 0
  let x64 := add64 b1 r1 x63
  let x65 := add64c b1 r1 x63
  let x66 := add64 b2 r2 x65
  let x67 := add64c b2 r2 x65
  let x68 := add64 b3 r3 x67
  let x69 := add64c b3 r3 x67
  let x70 := add64 b4 r4 x69
  let x71 := add64c b4 r4 x69
  ((x62, x64, x66, x68, x70), x71)

/-- Rounds 2-4 of `Element.Mul`: add the partial-product row of limb `x`
into the accumulator (whose top limb is the reduction carry plus the
pending row carry, source `x99 := x98 + x71` etc.), then Montgomery-reduce.
Returns the reduced accumulator and the new pending carry. -/
def mulRound (acc : (Nat × Nat × Nat × Nat) × Nat) (pending x : Nat) (t : Element) :
    ((Nat × Nat × Nat × Nat) × Nat) × Nat :=
  let r := mulRow x t
  let s := accAdd acc.1.1 acc.1.2.1 acc.1.2.2.1 acc.1.2.2.2 (acc.2 + pending)
    r.1 r.2.1 r.2.2.1 r.2.2.2.1 r.2.2.2.2
  (montRed s.1.1 s.1.2.1 s.1.2.2.1 s.1.2.2.2.1 s.1.2.2.2.2, s.2)

/-- Round 1 of `Element.Mul`: the row of `t1[0]` reduced directly. -/
def mulFirst (x : Nat) (t : Element) : (Nat × Nat × Nat × Nat) × Nat :=
  let r := mulRow x t
  montRed r.1 r.2.1 r.2.2.1 r.2.2.2.1 r.2.2.2.2

/-- `Element.Mul`: four interleaved rounds of partial products and
Montgomery reduction (the source's four blocks), followed by the
conditional subtraction of p. -/
def elemMul (t1 t2 : Element) : Element :=
  let b1 := mulFirst t1.l0 t2
  let q2 := mulRound b1 0 t1.l1 t2
  let q3 := mulRound q2.1 q2.2 t1.l2 t2
  let q4 := mulRound q3.1 q3.2 t1.l3 t2
  csub4 q4.1.1.1 q4.1.1.2.1 q4.1.1.2.2.1 q4.1.1.2.2.2 (q4.1.2 + q4.2)

/-- `Element.Square`: the Go source is `Element.Mul`'s body with both
operands the same element, line for line. -/
def elemSquare (t : Element) : Element := elemMul t t

/-- One round of `fromMontgomery` after the first: add the next input
limb into the accumulator (source `x28`–`x35` and the corresponding
blocks), then the Montgomery reduction round, whose top input is the
carry plus the previous round's pending carry. -/
def fmRound (acc : (Nat × Nat × Nat × Nat) × Nat) (arg : Nat) : (Nat × Nat × Nat × Nat) × Nat :=
  let x28 := add64 acc.1.1 arg 0
  let x29 := add64c acc.1.1 arg 0
  let x30 := add64 acc.1.2.1 0 x29
  let x31 := add64c acc.1.2.1 0 x29
  let x32 := add64 acc.1.2.2.1 0 x31
  let x33 := add64c acc.1.2.2.1 0 x31
  let x34 := add64 acc.1.2.2.2 0 x33
  let x35 := add64c acc.1.2.2.2 0 x33
  montRed x28 x30 x32 x34 (x35 + acc.2)

/-- `fromMontgomery`: translate a field element out of the Montgomery
domain: four reduction rounds, consuming one input limb each (the first
round reduces `[arg1[0],0,0,0,0]`), then the conditional subtraction. -/
def fromMontgomery (arg1 : Element) : Element :=
  let a1 := montRed arg1.l0 0 0 0 0
  let a2 := fmRound a1 arg1.l1
  let a3 := fmRound a2 arg1.l2
  let a4 := fmRound a3 arg1.l3
  csub4 a4.1.1 a4.1.2.1 a4.1.2.2.1 a4.1.2.2.2 a4.2

/-- One round of `toMontgomery` after the first: multiply the next input
limb by `R^2 mod p = 2^64 + 0x7a2000e90a1` (a 128-bit product plus the
limb folded into the high word, source `x36`–`x38`), add into the
accumulator and Montgomery-reduce. -/
def tmRound (acc : (Nat × Nat × Nat × Nat) × Nat) (x : Nat) : (Nat × Nat × Nat × Nat) × Nat :=
  let x36 := mul64Hi x 0x7a2000e90a1
  let x35 := mul64Lo x 0x7a2000e90a1
  let x37 := add64 x36 x 0
  let x38 := add64c x36 x 0
  let x39 := add64 acc.1.1 x35 0
  let x40 := add64c acc.1.1 x35 0
  let x41 := add64 acc.1.2.1 x37 x40
  let x42 := add64c acc.1.2.1 x37 x40
  let x43 := add64 acc.1.2.2.1 x38 x42
  let x44 := add64c acc.1.2.2.1 x38 x42
  let x45 := add64 acc.1.2.2.2 0 x44
  let x46 := add64c acc.1.2.2.2 0 x44
  montRed x39 x41 x43 x45 (x46 + acc.2)

/-- `toMontgomery`: translate a field element into the Montgomery domain
by multiplying with `R^2 mod p`, one limb at a time, reducing after each
(source lines `x5`–`x158`). -/
def toMontgomery (arg1 : Element) : Element :=
  let x6 := mul64Hi arg1.l0 0x7a2000e90a1
  let x5 := mul64Lo arg1.l0 0x7a2000e90a1
  let x7 := add64 x6 arg1.l0 0
  let x8 := add64c x6 arg1.l0 0
  let a1 := montRed x5 x7 x8 0 0
  let a2 := tmRound a1 arg1.l1
  let a3 := tmRound a2 arg1.l2
  let a4 := tmRound a3 arg1.l3
  csub4 a4.1.1 a4.1.2.1 a4.1.2.2.1 a4.1.2.2.2 a4.2

/-- The integer value of the four limbs (little-endian base 2^64). -/
def eval (e : Element) : Nat :=
  e.l0 + W * e.l1 + W ^ 2 * e.l2 + W ^ 3 * e.l3

/-- The integer value of a five-limb intermediate row. -/
def eval5 (r : Nat × Nat × Nat × Nat × Nat) : Nat :=
  r.1 + W * r.2.1 + W ^ 2 * r.2.2.1 + W ^ 3 * r.2.2.2.1 + W ^ 4 * r.2.2.2.2

/-- All five limbs of an intermediate row fit in 64 bits. -/
def bounded5 (r : Nat × Nat × Nat × Nat × Nat) : Prop :=
  r.1 < W ∧ r.2.1 < W ∧ r.2.2.1 < W ∧ r.2.2.2.1 < W ∧ r.2.2.2.2 < W

/-- The secp256k1 field characteristic `p = 2^256 - 2^32 - 977`. -/
def P : Nat := 115792089237316195423570985008687907853269984665640564039457584007908834671663

/-- All four limbs fit in 64 bits. -/
def Bounded (e : Element) : Prop :=
  e.l0 < W ∧ e.l1 < W ∧ e.l2 < W ∧ e.l3 < W

/-- A valid element: bounded limbs whose value is fully reduced mod p. -/
def Valid (e : Element) : Prop := Bounded e ∧ eval e < P

theorem w_pos : 0 < W := by decide

theorem p_lt : P < W ^ 4 := by decide

/-- The prime written in limbs: `P = p0 + W*(W-1) + W^2*(W-1) + W^3*(W-1)`
with `p0 = 0xfffffffefffffc2f`. -/
theorem p_limbs : P = 0xfffffffefffffc2f + W * 0xffffffffffffffff
    + W ^ 2 * 0xffffffffffffffff + W ^ 3 * 0xffffffffffffffff := by decide

theorem land_mask (a : Nat) (ha : a < W) : 0xffffffffffffffff &&& a = a := by
  have h : (0xffffffffffffffff : Nat) = 2 ^ 64 - 1 := by decide
  rw [h, Nat.and_comm]
  exact Nat.and_pow_two_sub_one_of_lt_two_pow (by exact ha)

theorem cmovznz_zero (a b : Nat) (ha : a < W) : cmovznz 0 a b = a := by
  show (0 * 0xffffffffffffffff % W &&& b) |||
      ((0 * 0xffffffffffffffff % W ^^^ 0xffffffffffffffff) &&& a) = a
  have h1 : (0 * 0xffffffffffffffff % W) = 0 := by decide
  rw [h1, Nat.zero_and, Nat.zero_xor, Nat.zero_or, land_mask a ha]

theorem cmovznz_one (a b : Nat) (hb : b < W) : cmovznz 1 a b = b := by
  show (1 * 0xffffffffffffffff % W &&& b) |||
      ((1 * 0xffffffffffffffff % W ^^^ 0xffffffffffffffff) &&& a) = b
  have h1 : (1 * 0xffffffffffffffff % W) = 0xffffffffffffffff := by decide
  rw [h1, Nat.xor_self, Nat.zero_and, Nat.or_zero, land_mask b hb]

theorem sub64_lt (a b c : Nat) : sub64 a b c < W := Nat.mod_lt _ (by decide)

theorem add64_lt (a b c : Nat) : add64 a b c < W := Nat.mod_lt _ (by decide)

theorem add64_spec (a b c : Nat) (ha : a < W) (hb : b < W) (hc : c ≤ 1) :
    add64 a b c + W * add64c a b c = a + b + c ∧ add64 a b c < W ∧ add64c a b c ≤ 1 := by
  unfold add64 add64c W at *; omega

theorem sub64_spec (a b c : Nat) (ha : a < W) (hb : b < W) (hc : c ≤ 1) :
    sub64 a b c + b + c = a + W * sub64b a b c ∧ sub64 a b c < W ∧ sub64b a b c ≤ 1 := by
  unfold sub64 sub64b W at *; omega

theorem mul64_spec (a b : Nat) (ha : a < W) (hb : b < W) :
    mul64Lo a b + W * mul64Hi a b = a * b ∧ mul64Lo a b < W ∧ mul64Hi a b < W := by
  unfold mul64Lo mul64Hi W at *
  refine ⟨by omega, by omega, ?_⟩
  have h : a * b < 18446744073709551616 * 18446744073709551616 :=
    Nat.mul_lt_mul_of_lt_of_lt ha hb
  omega

theorem csub4_spec (a0 a1 a2 a3 a4 : Nat) (h0 : a0 < W) (h1 : a1 < W) (h2 : a2 < W)
    (h3 : a3 < W) (h4 : a4 ≤ 1)
    (hlt : a0 + W * a1 + W ^ 2 * a2 + W ^ 3 * a3 + W ^ 4 * a4 < 2 * P) :
    Valid (csub4 a0 a1 a2 a3 a4) ∧
      (eval (csub4 a0 a1 a2 a3 a4) = a0 + W * a1 + W ^ 2 * a2 + W ^ 3 * a3 + W ^ 4 * a4 ∨
       eval (csub4 a0 a1 a2 a3 a4) + P = a0 + W * a1 + W ^ 2 * a2 + W ^ 3 * a3 + W ^ 4 * a4) := by
  simp only [csub4, Valid, Bounded, eval]
  set x9 := sub64 a0 0xfffffffefffffc2f 0 with hx9
  set x10 := sub64b a0 0xfffffffefffffc2f 0 with hx10
  set x11 := sub64 a1 0xffffffffffffffff x10 with hx11
  set x12 := sub64b a1 0xffffffffffffffff x10 with hx12
  set x13 := sub64 a2 0xffffffffffffffff x12 with hx13
  set x14 := sub64b a2 0xffffffffffffffff x12 with hx14
  set x15 := sub64 a3 0xffffffffffffffff x14 with hx15
  set x16 := sub64b a3 0xffffffffffffffff x14 with hx16
  set x18 := sub64b a4 0 x16 with hx18
  have t1 := sub64_spec a0 0xfffffffefffffc2f 0 h0 (by unfold W; omega) (by omega)
  rw [← hx9, ← hx10] at t1
  have t2 := sub64_spec a1 0xffffffffffffffff x10 h1 (by unfold W; omega) t1.2.2
  rw [← hx11, ← hx12] at t2
  have t3 := sub64_spec a2 0xffffffffffffffff x12 h2 (by unfold W; omega) t2.2.2
  rw [← hx13, ← hx14] at t3
  have t4 := sub64_spec a3 0xffffffffffffffff x14 h3 (by unfold W; omega) t3.2.2
  rw [← hx15, ← hx16] at t4
  have t5 := sub64_spec a4 0 x16 (by unfold W at *; omega) (by unfold W; omega) t4.2.2
  rw [← hx18] at t5
  clear_value x9 x10 x11 x12 x13 x14 x15 x16 x18
  clear hx9 hx10 hx11 hx12 hx13 hx14 hx15 hx16 hx18
  have hval : x9 + W * x11 + W ^ 2 * x13 + W ^ 3 * x15 + P =
      (a0 + W * a1 + W ^ 2 * a2 + W ^ 3 * a3) + W ^ 4 * x16 := by
    have e1 := t1.1
    have e2 := t2.1
    have e3 := t3.1
    have e4 := t4.1
    have b1 := t1.2.1
    have b2 := t2.2.1
    have b3 := t3.2.1
    have b4 := t4.2.1
    unfold W P at *
    omega
  rcases Nat.le_one_iff_eq_zero_or_eq_one.mp t5.2.2 with h | h
  · rw [h, cmovznz_zero _ _ t1.2.1, cmovznz_zero _ _ t2.2.1,
        cmovznz_zero _ _ t3.2.1, cmovznz_zero _ _ t4.2.1]
    rw [h] at t5
    have h5 := t5.1
    have h6 := t5.2.1
    have hx16 := t4.2.2
    have b1 := t1.2.1
    have b2 := t2.2.1
    have b3 := t3.2.1
    have b4 := t4.2.1
    refine ⟨⟨⟨b1, b2, b3, b4⟩, ?_⟩, Or.inr ?_⟩ <;>
    · unfold W P at *
      omega
  · rw [h, cmovznz_one _ _ h0, cmovznz_one _ _ h1, cmovznz_one _ _ h2, cmovznz_one _ _ h3]
    rw [h] at t5
    have h5 := t5.1
    have h6 := t5.2.1
    have hx16 := t4.2.2
    refine ⟨⟨⟨h0, h1, h2, h3⟩, ?_⟩, Or.inl ?_⟩ <;>
    · unfold W P at *
      omega

/-- `Element.Add` is addition mod p on valid elements. -/
theorem elemAdd_correct (a b : Element) (ha : Valid a) (hb : Valid b) :
    Valid (elemAdd a b) ∧ eval (elemAdd a b) = (eval a + eval b) % P := by
  obtain ⟨⟨ha0, ha1, ha2, ha3⟩, hav⟩ := ha
  obtain ⟨⟨hb0, hb1, hb2, hb3⟩, hbv⟩ := hb
  simp only [elemAdd]
  set x1 := add64 a.l0 b.l0 0 with hx1
  set x2 := add64c a.l0 b.l0 0 with hx2
  set x3 := add64 a.l1 b.l1 x2 with hx3
  set x4 := add64c a.l1 b.l1 x2 with hx4
  set x5 := add64 a.l2 b.l2 x4 with hx5
  set x6 := add64c a.l2 b.l2 x4 with hx6
  set x7 := add64 a.l3 b.l3 x6 with hx7
  set x8 := add64c a.l3 b.l3 x6 with hx8
  have s1 := add64_spec a.l0 b.l0 0 ha0 hb0 (by omega)
  rw [← hx1, ← hx2] at s1
  have s2 := add64_spec a.l1 b.l1 x2 ha1 hb1 s1.2.2
  rw [← hx3, ← hx4] at s2
  have s3 := add64_spec a.l2 b.l2 x4 ha2 hb2 s2.2.2
  rw [← hx5, ← hx6] at s3
  have s4 := add64_spec a.l3 b.l3 x6 ha3 hb3 s3.2.2
  rw [← hx7, ← hx8] at s4
  clear_value x1 x2 x3 x4 x5 x6 x7 x8
  clear hx1 hx2 hx3 hx4 hx5 hx6 hx7 hx8
  have hsum : x1 + W * x3 + W ^ 2 * x5 + W ^ 3 * x7 + W ^ 4 * x8 = eval a + eval b := by
    have e1 := s1.1
    have e2 := s2.1
    have e3 := s3.1
    have e4 := s4.1
    unfold eval W at *
    omega
  have hlt : x1 + W * x3 + W ^ 2 * x5 + W ^ 3 * x7 + W ^ 4 * x8 < 2 * P := by
    rw [hsum]; omega
  obtain ⟨hv, hd⟩ := csub4_spec x1 x3 x5 x7 x8 s1.2.1 s2.2.1 s3.2.1 s4.2.1 s4.2.2 hlt
  refine ⟨hv, ?_⟩
  rw [← hsum]
  have := hv.2
  unfold W P at *
  omega

theorem subP_telescope (x1 x3 x5 x7 y0 y1 y2 y3 k0 k1 k2 k3 : Nat)
    (u1 : y0 + W * k0 = x1 + 0xfffffffefffffc2f + 0)
    (u2 : y1 + W * k1 = x3 + 0xffffffffffffffff + k0)
    (u3 : y2 + W * k2 = x5 + 0xffffffffffffffff + k1)
    (u4 : y3 + W * k3 = x7 + 0xffffffffffffffff + k2) :
    y0 + W * y1 + W ^ 2 * y2 + W ^ 3 * y3 + W ^ 4 * k3 =
      (x1 + W * x3 + W ^ 2 * x5 + W ^ 3 * x7) + P := by
  unfold W P at *
  omega

/-- `Element.Sub` is subtraction mod p on valid elements. -/
theorem elemSub_correct (a b : Element) (ha : Valid a) (hb : Valid b) :
    Valid (elemSub a b) ∧ (eval (elemSub a b) + eval b) % P = eval a % P := by
  obtain ⟨⟨ha0, ha1, ha2, ha3⟩, hav⟩ := ha
  obtain ⟨⟨hb0, hb1, hb2, hb3⟩, hbv⟩ := hb
  simp only [elemSub, Valid, Bounded]
  set x1 := sub64 a.l0 b.l0 0 with hx1
  set x2 := sub64b a.l0 b.l0 0 with hx2
  set x3 := sub64 a.l1 b.l1 x2 with hx3
  set x4 := sub64b a.l1 b.l1 x2 with hx4
  set x5 := sub64 a.l2 b.l2 x4 with hx5
  set x6 := sub64b a.l2 b.l2 x4 with hx6
  set x7 := sub64 a.l3 b.l3 x6 with hx7
  set x8 := sub64b a.l3 b.l3 x6 with hx8
  have s1 := sub64_spec a.l0 b.l0 0 ha0 hb0 (by omega)
  rw [← hx1, ← hx2] at s1
  have s2 := sub64_spec a.l1 b.l1 x2 ha1 hb1 s1.2.2
  rw [← hx3, ← hx4] at s2
  have s3 := sub64_spec a.l2 b.l2 x4 ha2 hb2 s2.2.2
  rw [← hx5, ← hx6] at s3
  have s4 := sub64_spec a.l3 b.l3 x6 ha3 hb3 s3.2.2
  rw [← hx7, ← hx8] at s4
  clear_value x1 x2 x3 x4 x5 x6 x7 x8
  clear hx1 hx2 hx3 hx4 hx5 hx6 hx7 hx8
  have hdiff : x1 + W * x3 + W ^ 2 * x5 + W ^ 3 * x7 + eval b =
      eval a + W ^ 4 * x8 := by
    have e1 := s1.1
    have e2 := s2.1
    have e3 := s3.1
    have e4 := s4.1
    have c1 := s1.2.1
    have c2 := s2.2.1
    have c3 := s3.2.1
    have c4 := s4.2.1
    clear s1 s2 s3 s4 hav hbv
    unfold eval W at *
    omega
  have hb1' : x1 < W := s1.2.1
  have hb2' : x3 < W := s2.2.1
  have hb3' : x5 < W := s3.2.1
  have hb4' : x7 < W := s4.2.1
  have hx8le := s4.2.2
  clear s1 s2 s3 s4
  rcases Nat.le_one_iff_eq_zero_or_eq_one.mp hx8le with h | h
  · rw [h, cmovznz_zero _ _ (by unfold W; omega)]
    have hm : (0 : Nat) &&& 0xfffffffefffffc2f = 0 := Nat.zero_and _
    rw [hm]
    rw [h] at hdiff
    set y0 := add64 x1 0 0 with hy0
    set k0 := add64c x1 0 0 with hk0
    set y1 := add64 x3 0 k0 with hy1
    set k1 := add64c x3 0 k0 with hk1
    set y2 := add64 x5 0 k1 with hy2
    set k2 := add64c x5 0 k1 with hk2
    set y3 := add64 x7 0 k2 with hy3
    have u1 := add64_spec x1 0 0 hb1' (by unfold W; omega) (by omega)
    rw [← hy0, ← hk0] at u1
    have u2 := add64_spec x3 0 k0 hb2' (by unfold W; omega) u1.2.2
    rw [← hy1, ← hk1] at u2
    have u3 := add64_spec x5 0 k1 hb3' (by unfold W; omega) u2.2.2
    rw [← hy2, ← hk2] at u3
    have u4 := add64_spec x7 0 k2 hb4' (by unfold W; omega) u3.2.2
    rw [← hy3] at u4
    clear_value y0 k0 y1 k1 y2 k2 y3
    clear hy0 hk0 hy1 hk1 hy2 hk2 hy3
    have hres : eval ⟨y0, y1, y2, y3⟩ + eval b = eval a := by
      have e1 := u1.1
      have e2 := u2.1
      have e3 := u3.1
      have e4 := u4.1
      clear u1 u2 u3 u4 hav hbv
      simp only [eval] at *
      unfold W at *
      omega
    refine ⟨⟨⟨u1.2.1, u2.2.1, u3.2.1, u4.2.1⟩, ?_⟩, ?_⟩
    · exact lt_of_le_of_lt (Nat.le.intro hres) hav
    · rw [hres]
  · rw [h, cmovznz_one _ _ (by unfold W; omega)]
    have hm : (0xffffffffffffffff : Nat) &&& 0xfffffffefffffc2f = 0xfffffffefffffc2f :=
      land_mask _ (by unfold W; omega)
    rw [hm]
    rw [h] at hdiff
    set y0 := add64 x1 0xfffffffefffffc2f 0 with hy0
    set k0 := add64c x1 0xfffffffefffffc2f 0 with hk0
    set y1 := add64 x3 0xffffffffffffffff k0 with hy1
    set k1 := add64c x3 0xffffffffffffffff k0 with hk1
    set y2 := add64 x5 0xffffffffffffffff k1 with hy2
    set k2 := add64c x5 0xffffffffffffffff k1 with hk2
    set y3 := add64 x7 0xffffffffffffffff k2 with hy3
    set k3 := add64c x7 0xffffffffffffffff k2 with hk3
    have u1 := add64_spec x1 0xfffffffefffffc2f 0 hb1' (by unfold W; omega) (by omega)
    rw [← hy0, ← hk0] at u1
    have u2 := add64_spec x3 0xffffffffffffffff k0 hb2' (by unfold W; omega) u1.2.2
    rw [← hy1, ← hk1] at u2
    have u3 := add64_spec x5 0xffffffffffffffff k1 hb3' (by unfold W; omega) u2.2.2
    rw [← hy2, ← hk2] at u3
    have u4 := add64_spec x7 0xffffffffffffffff k2 hb4' (by unfold W; omega) u3.2.2
    rw [← hy3, ← hk3] at u4
    clear_value y0 k0 y1 k1 y2 k2 y3 k3
    clear hy0 hk0 hy1 hk1 hy2 hk2 hy3 hk3
    have htel := subP_telescope x1 x3 x5 x7 y0 y1 y2 y3 k0 k1 k2 k3 u1.1 u2.1 u3.1 u4.1
    have hres : eval ⟨y0, y1, y2, y3⟩ + eval b = eval a + P ∧ eval ⟨y0, y1, y2, y3⟩ < P := by
      have hk3one : k3 = 1 := by
        have hy0W := u1.2.1
        have hy1W := u2.2.1
        have hy2W := u3.2.1
        have hy3W := u4.2.1
        have hk3le := u4.2.2
        clear u1 u2 u3 u4 hav
        simp only [eval] at *
        unfold W P at *
        omega
      rw [hk3one] at htel
      have hy0W := u1.2.1
      have hy1W := u2.2.1
      have hy2W := u3.2.1
      have hy3W := u4.2.1
      clear u1 u2 u3 u4
      simp only [eval] at *
      unfold W P at *
      omega
    refine ⟨⟨⟨u1.2.1, u2.2.1, u3.2.1, u4.2.1⟩, hres.2⟩, ?_⟩
    · rw [hres.1, Nat.add_mod_right]

theorem mulRow_spec (x : Nat) (t : Element) (hx : x < W) (ht : Bounded t) :
    eval5 (mulRow x t) =
      x * t.l0 + W * (x * t.l1) + W ^ 2 * (x * t.l2) + W ^ 3 * (x * t.l3) ∧
    bounded5 (mulRow x t) := by
  obtain ⟨ht0, ht1, ht2, ht3⟩ := ht
  simp only [mulRow, eval5, bounded5]
  set x6 := mul64Hi x t.l3 with hx6
  set x5 := mul64Lo x t.l3 with hx5
  set x8 := mul64Hi x t.l2 with hx8
  set x7 := mul64Lo x t.l2 with hx7
  set x10 := mul64Hi x t.l1 with hx10
  set x9 := mul64Lo x t.l1 with hx9
  set x12 := mul64Hi x t.l0 with hx12
  set x11 := mul64Lo x t.l0 with hx11
  have m3 := mul64_spec x t.l3 hx ht3
  rw [← hx5, ← hx6] at m3
  have m2 := mul64_spec x t.l2 hx ht2
  rw [← hx7, ← hx8] at m2
  have m1 := mul64_spec x t.l1 hx ht1
  rw [← hx9, ← hx10] at m1
  have m0 := mul64_spec x t.l0 hx ht0
  rw [← hx11, ← hx12] at m0
  clear_value x5 x6 x7 x8 x9 x10 x11 x12
  clear hx5 hx6 hx7 hx8 hx9 hx10 hx11 hx12
  set y1 := add64 x12 x9 0 with hy1
  set k1 := add64c x12 x9 0 with hk1
  set y2 := add64 x10 x7 k1 with hy2
  set k2 := add64c x10 x7 k1 with hk2
  set y3 := add64 x8 x5 k2 with hy3
  set k3 := add64c x8 x5 k2 with hk3
  have u1 := add64_spec x12 x9 0 m0.2.2 m1.2.1 (by omega)
  rw [← hy1, ← hk1] at u1
  have u2 := add64_spec x10 x7 k1 m1.2.2 m2.2.1 u1.2.2
  rw [← hy2, ← hk2] at u2
  have u3 := add64_spec x8 x5 k2 m2.2.2 m3.2.1 u2.2.2
  rw [← hy3, ← hk3] at u3
  clear_value y1 k1 y2 k2 y3 k3
  clear hy1 hk1 hy2 hk2 hy3 hk3
  have e0 := m0.1
  have e1 := m1.1
  have e2 := m2.1
  have e3 := m3.1
  have hx6W := m3.2.2
  have b1 := u1.1
  have b2 := u2.1
  have b3 := u3.1
  have c1 := u1.2.1
  have c2 := u2.2.1
  have c3 := u3.2.1
  have d3 := u3.2.2
  have l0 := m0.2.1
  have hprod3 : x * t.l3 ≤ 18446744073709551615 * 18446744073709551615 :=
    Nat.mul_le_mul (by unfold W at hx; omega) (by unfold W at ht3; omega)
  clear u1 u2 u3 m0 m1 m2 m3
  refine ⟨?_, l0, c1, c2, c3, ?_⟩ <;>
  · unfold W at *
    omega

/-- Value of a `montRed` output: four limbs and a carry. -/
def evalR (b : (Nat × Nat × Nat × Nat) × Nat) : Nat :=
  b.1.1 + W * b.1.2.1 + W ^ 2 * b.1.2.2.1 + W ^ 3 * b.1.2.2.2 + W ^ 4 * b.2

/-- Limb bounds of a `montRed` output. -/
def boundedR (b : (Nat × Nat × Nat × Nat) × Nat) : Prop :=
  b.1.1 < W ∧ b.1.2.1 < W ∧ b.1.2.2.1 < W ∧ b.1.2.2.2 < W ∧ b.2 ≤ 1

theorem montRed_spec (a0 a1 a2 a3 a4 : Nat) (h0 : a0 < W) (h1 : a1 < W) (h2 : a2 < W)
    (h3 : a3 < W) (h4 : a4 < W) :
    W * evalR (montRed a0 a1 a2 a3 a4) =
      (a0 + W * a1 + W ^ 2 * a2 + W ^ 3 * a3 + W ^ 4 * a4) + mul64Lo a0 0xd838091dd2253531 * P ∧
    boundedR (montRed a0 a1 a2 a3 a4) := by
  simp only [montRed, evalR, boundedR]
  set m := mul64Lo a0 0xd838091dd2253531 with hm
  have hmW : m < W := by rw [hm]; unfold mul64Lo; exact Nat.mod_lt _ (by decide)
  have hcancel : (a0 + mul64Lo m 0xfffffffefffffc2f) % W = 0 := by
    rw [hm]
    unfold mul64Lo W
    omega
  clear_value m
  clear hm
  set x23 := mul64Hi m 0xffffffffffffffff with hx23
  set x22 := mul64Lo m 0xffffffffffffffff with hx22
  set x29 := mul64Hi m 0xfffffffefffffc2f with hx29
  set x28 := mul64Lo m 0xfffffffefffffc2f with hx28
  have mf := mul64_spec m 0xffffffffffffffff hmW (by unfold W; omega)
  rw [← hx22, ← hx23] at mf
  have mp := mul64_spec m 0xfffffffefffffc2f hmW (by unfold W; omega)
  rw [← hx28, ← hx29] at mp
  clear_value x22 x23 x28 x29
  clear hx22 hx23 hx28 hx29
  set y1 := add64 x29 x22 0 with hy1
  set k1 := add64c x29 x22 0 with hk1
  set y2 := add64 x23 x22 k1 with hy2
  set k2 := add64c x23 x22 k1 with hk2
  set y3 := add64 x23 x22 k2 with hy3
  set k3 := add64c x23 x22 k2 with hk3
  have u1 := add64_spec x29 x22 0 mp.2.2 mf.2.1 (by omega)
  rw [← hy1, ← hk1] at u1
  have u2 := add64_spec x23 x22 k1 mf.2.2 mf.2.1 u1.2.2
  rw [← hy2, ← hk2] at u2
  have u3 := add64_spec x23 x22 k2 mf.2.2 mf.2.1 u2.2.2
  rw [← hy3, ← hk3] at u3
  clear_value y1 k1 y2 k2 y3 k3
  clear hy1 hk1 hy2 hk2 hy3 hk3
  set y4 := k3 + x23 with hy4
  set c0 := add64c a0 x28 0 with hc0
  have v0 := add64_spec a0 x28 0 h0 mp.2.1 (by omega)
  rw [← hc0] at v0
  set z1 := add64 a1 y1 c0 with hz1
  set l1 := add64c a1 y1 c0 with hl1
  have v1 := add64_spec a1 y1 c0 h1 u1.2.1 v0.2.2
  rw [← hz1, ← hl1] at v1
  set z2 := add64 a2 y2 l1 with hz2
  set l2 := add64c a2 y2 l1 with hl2
  have v2 := add64_spec a2 y2 l1 h2 u2.2.1 v1.2.2
  rw [← hz2, ← hl2] at v2
  set z3 := add64 a3 y3 l2 with hz3
  set l3 := add64c a3 y3 l2 with hl3
  have v3 := add64_spec a3 y3 l2 h3 u3.2.1 v2.2.2
  rw [← hz3, ← hl3] at v3
  set z4 := add64 a4 y4 l3 with hz4
  set l4 := add64c a4 y4 l3 with hl4
  have hy4W : y4 < W := by
    rw [hy4]
    have hk3 := u3.2.2
    have hmf := mf.1
    have hmb : m * 18446744073709551615 ≤ 18446744073709551615 * 18446744073709551615 :=
      Nat.mul_le_mul_right _ (by unfold W at hmW; omega)
    unfold W at *
    omega
  have v4 := add64_spec a4 y4 l3 h4 hy4W v3.2.2
  rw [← hz4, ← hl4] at v4
  clear_value z1 l1 z2 l2 z3 l3 z4 l4 c0
  clear hz1 hl1 hz2 hl2 hz3 hl3 hz4 hl4 hc0
  have hmp : x28 + W * y1 + W ^ 2 * y2 + W ^ 3 * y3 + W ^ 4 * y4 = m * P := by
    have e1 := u1.1
    have e2 := u2.1
    have e3 := u3.1
    have ef := mf.1
    have ep := mp.1
    rw [hy4]
    clear u1 u2 u3 v0 v1 v2 v3 v4 hcancel
    unfold W P at *
    omega
  have hdrop : (a0 + x28) % W = 0 := hcancel
  have e0 := v0.1
  have e1 := v1.1
  have e2 := v2.1
  have e3 := v3.1
  have e4 := v4.1
  refine ⟨?_, v1.2.1, v2.2.1, v3.2.1, v4.2.1, v4.2.2⟩
  · have hl0 : x28 < W := mp.2.1
    clear u1 u2 u3 mf mp v0 v1 v2 v3 v4
    simp only [add64, add64c] at *
    unfold W P at *
    omega

theorem accAdd_spec (b0 b1 b2 b3 b4 r0 r1 r2 r3 r4 : Nat)
    (h0 : b0 < W) (h1 : b1 < W) (h2 : b2 < W) (h3 : b3 < W) (h4 : b4 < W)
    (g0 : r0 < W) (g1 : r1 < W) (g2 : r2 < W) (g3 : r3 < W) (g4 : r4 < W) :
    eval5 (accAdd b0 b1 b2 b3 b4 r0 r1 r2 r3 r4).1 +
        W ^ 5 * (accAdd b0 b1 b2 b3 b4 r0 r1 r2 r3 r4).2 =
      (b0 + W * b1 + W ^ 2 * b2 + W ^ 3 * b3 + W ^ 4 * b4) +
        (r0 + W * r1 + W ^ 2 * r2 + W ^ 3 * r3 + W ^ 4 * r4) ∧
    bounded5 (accAdd b0 b1 b2 b3 b4 r0 r1 r2 r3 r4).1 ∧
      (accAdd b0 b1 b2 b3 b4 r0 r1 r2 r3 r4).2 ≤ 1 := by
  simp only [accAdd, eval5, bounded5]
  set y0 := add64 b0 r0 0 with hy0
  set k0 := add64c b0 r0 0 with hk0
  set y1 := add64 b1 r1 k0 with hy1
  set k1 := add64c b1 r1 k0 with hk1
  set y2 := add64 b2 r2 k1 with hy2
  set k2 := add64c b2 r2 k1 with hk2
  set y3 := add64 b3 r3 k2 with hy3
  set k3 := add64c b3 r3 k2 with hk3
  set y4 := add64 b4 r4 k3 with hy4
  set k4 := add64c b4 r4 k3 with hk4
  have u0 := add64_spec b0 r0 0 h0 g0 (by omega)
  rw [← hy0, ← hk0] at u0
  have u1 := add64_spec b1 r1 k0 h1 g1 u0.2.2
  rw [← hy1, ← hk1] at u1
  have u2 := add64_spec b2 r2 k1 h2 g2 u1.2.2
  rw [← hy2, ← hk2] at u2
  have u3 := add64_spec b3 r3 k2 h3 g3 u2.2.2
  rw [← hy3, ← hk3] at u3
  have u4 := add64_spec b4 r4 k3 h4 g4 u3.2.2
  rw [← hy4, ← hk4] at u4
  clear_value y0 k0 y1 k1 y2 k2 y3 k3 y4 k4
  clear hy0 hk0 hy1 hk1 hy2 hk2 hy3 hk3 hy4 hk4
  have e0 := u0.1
  have e1 := u1.1
  have e2 := u2.1
  have e3 := u3.1
  have e4 := u4.1
  refine ⟨?_, ⟨u0.2.1, u1.2.1, u2.2.1, u3.2.1, u4.2.1⟩, u4.2.2⟩
  clear u0 u1 u2 u3 u4
  unfold W at *
  omega

theorem mul64Lo_lt (a b : Nat) : mul64Lo a b < W := Nat.mod_lt _ (by decide)

/-- Spec of the first multiplication round. -/
theorem mulFirst_spec (x : Nat) (t : Element) (hx : x < W) (ht : Bounded t) :
    ∃ m, m < W ∧
      W * evalR (mulFirst x t) =
        (x * t.l0 + W * (x * t.l1) + W ^ 2 * (x * t.l2) + W ^ 3 * (x * t.l3)) + m * P ∧
      boundedR (mulFirst x t) := by
  simp only [mulFirst]
  set r := mulRow x t with hr
  have R := mulRow_spec x t hx ht
  rw [← hr] at R
  simp only [eval5, bounded5] at R
  obtain ⟨hR, hR0, hR1, hR2, hR3, hR4⟩ := R
  have B := montRed_spec r.1 r.2.1 r.2.2.1 r.2.2.2.1 r.2.2.2.2 hR0 hR1 hR2 hR3 hR4
  refine ⟨mul64Lo r.1 0xd838091dd2253531, mul64Lo_lt _ _, ?_, B.2⟩
  rw [B.1, hR]

/-- Spec of multiplication rounds 2-4. -/
theorem mulRound_spec (acc : (Nat × Nat × Nat × Nat) × Nat) (pending x : Nat) (t : Element)
    (hacc : boundedR acc) (hp : pending ≤ 1) (hx : x < W) (ht : Bounded t) :
    ∃ m, m < W ∧
      W * (evalR (mulRound acc pending x t).1 + W ^ 4 * (mulRound acc pending x t).2) =
        (evalR acc + W ^ 4 * pending)
          + (x * t.l0 + W * (x * t.l1) + W ^ 2 * (x * t.l2) + W ^ 3 * (x * t.l3)) + m * P ∧
      boundedR (mulRound acc pending x t).1 ∧ (mulRound acc pending x t).2 ≤ 1 := by
  obtain ⟨hc0, hc1, hc2, hc3, hc4⟩ := hacc
  simp only [mulRound]
  set r := mulRow x t with hr
  have R := mulRow_spec x t hx ht
  rw [← hr] at R
  simp only [eval5, bounded5] at R
  obtain ⟨hR, hR0, hR1, hR2, hR3, hR4⟩ := R
  set s := accAdd acc.1.1 acc.1.2.1 acc.1.2.2.1 acc.1.2.2.2 (acc.2 + pending)
    r.1 r.2.1 r.2.2.1 r.2.2.2.1 r.2.2.2.2 with hs
  have S := accAdd_spec acc.1.1 acc.1.2.1 acc.1.2.2.1 acc.1.2.2.2 (acc.2 + pending)
    r.1 r.2.1 r.2.2.1 r.2.2.2.1 r.2.2.2.2
    hc0 hc1 hc2 hc3 (by unfold W at *; omega) hR0 hR1 hR2 hR3 hR4
  rw [← hs] at S
  simp only [eval5, bounded5] at S
  obtain ⟨hS, ⟨hS0, hS1, hS2, hS3, hS4⟩, hSc⟩ := S
  have B := montRed_spec s.1.1 s.1.2.1 s.1.2.2.1 s.1.2.2.2.1 s.1.2.2.2.2 hS0 hS1 hS2 hS3 hS4
  refine ⟨mul64Lo s.1.1 0xd838091dd2253531, mul64Lo_lt _ _, ?_, B.2, hSc⟩
  have hB := B.1
  clear_value r s
  clear hr hs
  simp only [evalR] at hB ⊢
  clear B
  unfold W P at *
  omega

/-- `Element.Mul` is Montgomery multiplication on valid elements: the
result is valid and `R·out ≡ a·b (mod p)` with `R = 2^256 = W^4`. -/
theorem elemMul_correct (a b : Element) (ha : Valid a) (hb : Valid b) :
    Valid (elemMul a b) ∧ (W ^ 4 * eval (elemMul a b)) % P = (eval a * eval b) % P := by
  obtain ⟨⟨ha0, ha1, ha2, ha3⟩, hav⟩ := ha
  obtain ⟨hbB, hbv⟩ := hb
  obtain ⟨hb0, hb1, hb2, hb3⟩ := id hbB
  simp only [elemMul]
  set b1 := mulFirst a.l0 b with hb1'
  obtain ⟨m1, hm1W, hV1, hB1⟩ := mulFirst_spec a.l0 b ha0 hbB
  rw [← hb1'] at hV1 hB1
  set q2 := mulRound b1 0 a.l1 b with hq2
  obtain ⟨m2, hm2W, hV2, hB2, hP2⟩ := mulRound_spec b1 0 a.l1 b hB1 (by omega) ha1 hbB
  rw [← hq2] at hV2 hB2 hP2
  set q3 := mulRound q2.1 q2.2 a.l2 b with hq3
  obtain ⟨m3, hm3W, hV3, hB3, hP3⟩ := mulRound_spec q2.1 q2.2 a.l2 b hB2 hP2 ha2 hbB
  rw [← hq3] at hV3 hB3 hP3
  set q4 := mulRound q3.1 q3.2 a.l3 b with hq4
  obtain ⟨m4, hm4W, hV4, hB4, hP4⟩ := mulRound_spec q3.1 q3.2 a.l3 b hB3 hP3 ha3 hbB
  rw [← hq4] at hV4 hB4 hP4
  clear_value b1 q2 q3 q4
  clear hb1' hq2 hq3 hq4
  have hE : eval a * eval b =
      (a.l0 * b.l0 + W * (a.l0 * b.l1) + W ^ 2 * (a.l0 * b.l2) + W ^ 3 * (a.l0 * b.l3))
      + W * (a.l1 * b.l0 + W * (a.l1 * b.l1) + W ^ 2 * (a.l1 * b.l2) + W ^ 3 * (a.l1 * b.l3))
      + W ^ 2 * (a.l2 * b.l0 + W * (a.l2 * b.l1) + W ^ 2 * (a.l2 * b.l2) + W ^ 3 * (a.l2 * b.l3))
      + W ^ 3 * (a.l3 * b.l0 + W * (a.l3 * b.l1) + W ^ 2 * (a.l3 * b.l2) + W ^ 3 * (a.l3 * b.l3)) := by
    simp only [eval]
    ring
  have hVal : W ^ 4 * (evalR q4.1 + W ^ 4 * q4.2) =
      eval a * eval b + (m1 + W * m2 + W ^ 2 * m3 + W ^ 3 * m4) * P := by
    rw [hE]
    clear hE hav hbv
    unfold W P at hV1 hV2 hV3 hV4 ⊢
    omega
  clear hV1 hV2 hV3 hV4 hE
  have hEb : eval a * eval b ≤ (P - 1) * (P - 1) :=
    Nat.mul_le_mul (by omega) (by omega)
  have hA4lt : evalR q4.1 + W ^ 4 * q4.2 < 2 * P := by
    clear hav hbv
    unfold W P at *
    omega
  obtain ⟨hq40, hq41, hq42, hq43, hq44⟩ := hB4
  have hA4eq : evalR q4.1 + W ^ 4 * q4.2 =
      q4.1.1.1 + W * q4.1.1.2.1 + W ^ 2 * q4.1.1.2.2.1 + W ^ 3 * q4.1.1.2.2.2
        + W ^ 4 * (q4.1.2 + q4.2) := by
    simp only [evalR]
    ring
  have htop : q4.1.2 + q4.2 ≤ 1 := by
    rw [hA4eq] at hA4lt
    clear hVal hEb hav hbv
    unfold W P at hA4lt
    omega
  rw [hA4eq] at hA4lt hVal
  obtain ⟨hv, hd⟩ := csub4_spec q4.1.1.1 q4.1.1.2.1 q4.1.1.2.2.1 q4.1.1.2.2.2 (q4.1.2 + q4.2)
    hq40 hq41 hq42 hq43 htop hA4lt
  refine ⟨hv, ?_⟩
  have hvP := hv.2
  rcases hd with h | h
  · rw [h]
    clear hA4lt hEb hav hbv hvP
    unfold W P at hVal ⊢
    rw [hVal]
    simp [Nat.add_mul_mod_self_right]
  · have hfin : W ^ 4 * eval (csub4 q4.1.1.1 q4.1.1.2.1 q4.1.1.2.2.1 q4.1.1.2.2.2 (q4.1.2 + q4.2))
        + W ^ 4 * P = eval a * eval b + (m1 + W * m2 + W ^ 2 * m3 + W ^ 3 * m4) * P := by
      rw [← hVal]
      clear hVal hA4lt hEb hav hbv hvP
      unfold W P at h ⊢
      omega
    clear hVal hA4lt hEb hav hbv hvP
    unfold W P at hfin ⊢
    omega

theorem fmRound_spec (acc : (Nat × Nat × Nat × Nat) × Nat) (arg : Nat)
    (hacc : boundedR acc) (harg : arg < W) :
    ∃ m, m < W ∧
      W * evalR (fmRound acc arg) = (evalR acc + arg) + m * P ∧
      boundedR (fmRound acc arg) := by
  obtain ⟨hc0, hc1, hc2, hc3, hc4⟩ := hacc
  simp only [fmRound]
  set y0 := add64 acc.1.1 arg 0 with hy0
  set k0 := add64c acc.1.1 arg 0 with hk0
  set y1 := add64 acc.1.2.1 0 k0 with hy1
  set k1 := add64c acc.1.2.1 0 k0 with hk1
  set y2 := add64 acc.1.2.2.1 0 k1 with hy2
  set k2 := add64c acc.1.2.2.1 0 k1 with hk2
  set y3 := add64 acc.1.2.2.2 0 k2 with hy3
  set k3 := add64c acc.1.2.2.2 0 k2 with hk3
  have u0 := add64_spec acc.1.1 arg 0 hc0 harg (by omega)
  rw [← hy0, ← hk0] at u0
  have u1 := add64_spec acc.1.2.1 0 k0 hc1 (by unfold W; omega) u0.2.2
  rw [← hy1, ← hk1] at u1
  have u2 := add64_spec acc.1.2.2.1 0 k1 hc2 (by unfold W; omega) u1.2.2
  rw [← hy2, ← hk2] at u2
  have u3 := add64_spec acc.1.2.2.2 0 k2 hc3 (by unfold W; omega) u2.2.2
  rw [← hy3, ← hk3] at u3
  clear_value y0 k0 y1 k1 y2 k2 y3 k3
  clear hy0 hk0 hy1 hk1 hy2 hk2 hy3 hk3
  have B := montRed_spec y0 y1 y2 y3 (k3 + acc.2) u0.2.1 u1.2.1 u2.2.1 u3.2.1
    (by unfold W at *; omega)
  refine ⟨mul64Lo y0 0xd838091dd2253531, mul64Lo_lt _ _, ?_, B.2⟩
  have hB := B.1
  clear B
  have e0 := u0.1
  have e1 := u1.1
  have e2 := u2.1
  have e3 := u3.1
  clear u0 u1 u2 u3
  simp only [evalR] at hB ⊢
  unfold W P at *
  omega

/-- `fromMontgomery` takes valid input to valid output with
`R·out ≡ in (mod p)`, i.e. `out = in·R⁻¹ mod p`. -/
theorem fromMontgomery_correct (e : Element) (he : Valid e) :
    Valid (fromMontgomery e) ∧ (W ^ 4 * eval (fromMontgomery e)) % P = eval e % P := by
  obtain ⟨⟨h0, h1, h2, h3⟩, hev⟩ := he
  simp only [fromMontgomery]
  set a1 := montRed e.l0 0 0 0 0 with ha1
  have B1 := montRed_spec e.l0 0 0 0 0 h0 (by unfold W; omega) (by unfold W; omega)
    (by unfold W; omega) (by unfold W; omega)
  rw [← ha1] at B1
  obtain ⟨hV1, hB1⟩ := B1
  set m1 := mul64Lo e.l0 0xd838091dd2253531 with hm1
  have hm1W : m1 < W := hm1 ▸ mul64Lo_lt e.l0 0xd838091dd2253531
  set a2 := fmRound a1 e.l1 with ha2
  obtain ⟨m2, hm2W, hV2, hB2⟩ := fmRound_spec a1 e.l1 hB1 h1
  rw [← ha2] at hV2 hB2
  set a3 := fmRound a2 e.l2 with ha3
  obtain ⟨m3, hm3W, hV3, hB3⟩ := fmRound_spec a2 e.l2 hB2 h2
  rw [← ha3] at hV3 hB3
  set a4 := fmRound a3 e.l3 with ha4
  obtain ⟨m4, hm4W, hV4, hB4⟩ := fmRound_spec a3 e.l3 hB3 h3
  rw [← ha4] at hV4 hB4
  clear_value a1 a2 a3 a4 m1
  clear ha1 ha2 ha3 ha4 hm1
  have hVal : W ^ 4 * evalR a4 =
      eval e + (m1 + W * m2 + W ^ 2 * m3 + W ^ 3 * m4) * P := by
    clear hev
    simp only [eval]
    unfold W P at hV1 hV2 hV3 hV4 ⊢
    omega
  clear hV1 hV2 hV3 hV4
  have hA4lt : evalR a4 < 2 * P := by
    have hev' := hev
    simp only [W, P] at hVal hm1W hm2W hm3W hm4W hev' ⊢
    omega
  obtain ⟨hb0, hb1, hb2, hb3, hb4⟩ := hB4
  have hA4eq : evalR a4 = a4.1.1 + W * a4.1.2.1 + W ^ 2 * a4.1.2.2.1 + W ^ 3 * a4.1.2.2.2
      + W ^ 4 * a4.2 := rfl
  rw [hA4eq] at hA4lt hVal
  obtain ⟨hv, hd⟩ := csub4_spec a4.1.1 a4.1.2.1 a4.1.2.2.1 a4.1.2.2.2 a4.2
    hb0 hb1 hb2 hb3 hb4 hA4lt
  refine ⟨hv, ?_⟩
  rcases hd with h | h
  · rw [h]
    unfold W P at hVal ⊢
    rw [hVal]
    simp [Nat.add_mul_mod_self_right]
  · have hfin : W ^ 4 * eval (csub4 a4.1.1 a4.1.2.1 a4.1.2.2.1 a4.1.2.2.2 a4.2)
        + W ^ 4 * P = eval e + (m1 + W * m2 + W ^ 2 * m3 + W ^ 3 * m4) * P := by
      rw [← hVal]
      unfold W P at h ⊢
      omega
    clear hVal hA4lt hev
    unfold W P at hfin ⊢
    omega

theorem tmRound_spec (acc : (Nat × Nat × Nat × Nat) × Nat) (x : Nat)
    (hacc : boundedR acc) (hx : x < W) :
    ∃ m, m < W ∧
      W * evalR (tmRound acc x) = (evalR acc + x * 0x1000007a2000e90a1) + m * P ∧
      boundedR (tmRound acc x) := by
  obtain ⟨hc0, hc1, hc2, hc3, hc4⟩ := hacc
  simp only [tmRound]
  set x36 := mul64Hi x 0x7a2000e90a1 with hx36
  set x35 := mul64Lo x 0x7a2000e90a1 with hx35
  have mm := mul64_spec x 0x7a2000e90a1 hx (by unfold W; omega)
  rw [← hx35, ← hx36] at mm
  set x37 := add64 x36 x 0 with hx37
  set x38 := add64c x36 x 0 with hx38
  have u := add64_spec x36 x 0 mm.2.2 hx (by omega)
  rw [← hx37, ← hx38] at u
  clear_value x35 x36 x37 x38
  clear hx35 hx36 hx37 hx38
  set y0 := add64 acc.1.1 x35 0 with hy0
  set k0 := add64c acc.1.1 x35 0 with hk0
  set y1 := add64 acc.1.2.1 x37 k0 with hy1
  set k1 := add64c acc.1.2.1 x37 k0 with hk1
  set y2 := add64 acc.1.2.2.1 x38 k1 with hy2
  set k2 := add64c acc.1.2.2.1 x38 k1 with hk2
  set y3 := add64 acc.1.2.2.2 0 k2 with hy3
  set k3 := add64c acc.1.2.2.2 0 k2 with hk3
  have u0 := add64_spec acc.1.1 x35 0 hc0 mm.2.1 (by omega)
  rw [← hy0, ← hk0] at u0
  have u1 := add64_spec acc.1.2.1 x37 k0 hc1 u.2.1 u0.2.2
  rw [← hy1, ← hk1] at u1
  have u2 := add64_spec acc.1.2.2.1 x38 k1 hc2 (by unfold W at *; omega) u1.2.2
  rw [← hy2, ← hk2] at u2
  have u3 := add64_spec acc.1.2.2.2 0 k2 hc3 (by unfold W; omega) u2.2.2
  rw [← hy3, ← hk3] at u3
  clear_value y0 k0 y1 k1 y2 k2 y3 k3
  clear hy0 hk0 hy1 hk1 hy2 hk2 hy3 hk3
  have B := montRed_spec y0 y1 y2 y3 (k3 + acc.2) u0.2.1 u1.2.1 u2.2.1 u3.2.1
    (by unfold W at *; omega)
  refine ⟨mul64Lo y0 0xd838091dd2253531, mul64Lo_lt _ _, ?_, B.2⟩
  have hB := B.1
  clear B
  have hrow : x35 + W * x37 + W ^ 2 * x38 = x * 0x1000007a2000e90a1 := by
    have ep := mm.1
    have eu := u.1
    clear mm u u0 u1 u2 u3 hB
    unfold W at *
    omega
  have htel : y0 + W * y1 + W ^ 2 * y2 + W ^ 3 * y3 + W ^ 4 * k3 =
      (acc.1.1 + W * acc.1.2.1 + W ^ 2 * acc.1.2.2.1 + W ^ 3 * acc.1.2.2.2)
        + (x35 + W * x37 + W ^ 2 * x38) := by
    have e0 := u0.1
    have e1 := u1.1
    have e2 := u2.1
    have e3 := u3.1
    clear u0 u1 u2 u3 mm u hB hrow
    unfold W at *
    omega
  rw [hrow] at htel
  simp only [evalR] at hB ⊢
  clear u0 u1 u2 u3 mm u hrow
  unfold W at htel hB ⊢
  omega

set_option maxHeartbeats 1600000 in
/-- `toMontgomery` takes valid input to valid output with
`R·out ≡ in·(R^2 mod p) (mod p)`, i.e. `out = in·R mod p`. -/
theorem toMontgomery_correct (e : Element) (he : Valid e) :
    Valid (toMontgomery e) ∧
      (W ^ 4 * eval (toMontgomery e)) % P = (eval e * 0x1000007a2000e90a1) % P := by
  obtain ⟨⟨h0, h1, h2, h3⟩, hev⟩ := he
  simp only [toMontgomery]
  set x6 := mul64Hi e.l0 0x7a2000e90a1 with hx6
  set x5 := mul64Lo e.l0 0x7a2000e90a1 with hx5
  have mm := mul64_spec e.l0 0x7a2000e90a1 h0 (by unfold W; omega)
  rw [← hx5, ← hx6] at mm
  set x7 := add64 x6 e.l0 0 with hx7
  set x8 := add64c x6 e.l0 0 with hx8
  have u := add64_spec x6 e.l0 0 mm.2.2 h0 (by omega)
  rw [← hx7, ← hx8] at u
  clear_value x5 x6 x7 x8
  clear hx5 hx6 hx7 hx8
  set a1 := montRed x5 x7 x8 0 0 with ha1
  have B1 := montRed_spec x5 x7 x8 0 0 mm.2.1 u.2.1 (by unfold W at *; omega)
    (by unfold W; omega) (by unfold W; omega)
  rw [← ha1] at B1
  obtain ⟨hV1, hB1⟩ := B1
  set m1 := mul64Lo x5 0xd838091dd2253531 with hm1
  have hm1W : m1 < W := hm1 ▸ mul64Lo_lt x5 0xd838091dd2253531
  set a2 := tmRound a1 e.l1 with ha2
  obtain ⟨m2, hm2W, hV2, hB2⟩ := tmRound_spec a1 e.l1 hB1 h1
  rw [← ha2] at hV2 hB2
  set a3 := tmRound a2 e.l2 with ha3
  obtain ⟨m3, hm3W, hV3, hB3⟩ := tmRound_spec a2 e.l2 hB2 h2
  rw [← ha3] at hV3 hB3
  set a4 := tmRound a3 e.l3 with ha4
  obtain ⟨m4, hm4W, hV4, hB4⟩ := tmRound_spec a3 e.l3 hB3 h3
  rw [← ha4] at hV4 hB4
  clear_value a1 a2 a3 a4 m1
  clear ha1 ha2 ha3 ha4 hm1
  have hprod : x5 + W * x7 + W ^ 2 * x8 = e.l0 * 0x1000007a2000e90a1 := by
    have ep := mm.1
    have eu := u.1
    clear mm u hev
    unfold W at *
    omega
  have hC1 : W * evalR a1 = e.l0 * 0x1000007a2000e90a1 + m1 * P := by
    unfold W at hprod hV1 ⊢
    omega
  have hC2 : W ^ 2 * evalR a2 = (e.l0 + W * e.l1) * 0x1000007a2000e90a1
      + m1 * P + W * (m2 * P) := by
    unfold W at hC1 hV2 ⊢
    omega
  have hC3 : W ^ 3 * evalR a3 = (e.l0 + W * e.l1 + W ^ 2 * e.l2) * 0x1000007a2000e90a1
      + m1 * P + W * (m2 * P) + W ^ 2 * (m3 * P) := by
    unfold W at hC2 hV3 ⊢
    omega
  have hC4 : W ^ 4 * evalR a4 = (e.l0 + W * e.l1 + W ^ 2 * e.l2 + W ^ 3 * e.l3)
        * 0x1000007a2000e90a1
      + m1 * P + W * (m2 * P) + W ^ 2 * (m3 * P) + W ^ 3 * (m4 * P) := by
    unfold W at hC3 hV4 ⊢
    omega
  have hM : m1 * P + W * (m2 * P) + W ^ 2 * (m3 * P) + W ^ 3 * (m4 * P)
      = (m1 + W * m2 + W ^ 2 * m3 + W ^ 3 * m4) * P := by ring
  have hVal : W ^ 4 * evalR a4 =
      eval e * 0x1000007a2000e90a1 + (m1 + W * m2 + W ^ 2 * m3 + W ^ 3 * m4) * P := by
    rw [← hM]
    simp only [eval]
    omega
  clear hC1 hC2 hC3 hC4 hM
  clear hV1 hV2 hV3 hV4 hprod
  have hE : eval e * 0x1000007a2000e90a1 ≤ (P - 1) * 0x1000007a2000e90a1 :=
    Nat.mul_le_mul_right _ (by omega)
  have hMP : (m1 + W * m2 + W ^ 2 * m3 + W ^ 3 * m4) * P ≤ (W ^ 4 - 1) * P :=
    Nat.mul_le_mul_right _ (by unfold W at *; omega)
  have hPC : (P - 1) * 0x1000007a2000e90a1 < W ^ 4 * P := by
    unfold W P
    norm_num
  have hWP : (W ^ 4 - 1) * P ≤ W ^ 4 * P :=
    Nat.mul_le_mul_right _ (Nat.sub_le _ _)
  have hA4lt : evalR a4 < 2 * P := by
    have hsplit : W ^ 4 * (2 * P) = W ^ 4 * P + W ^ 4 * P := by ring
    have hstep : W ^ 4 * evalR a4 < W ^ 4 * (2 * P) := by
      rw [hVal, hsplit]
      exact add_lt_add_of_lt_of_le (lt_of_le_of_lt hE hPC) (le_trans hMP hWP)
    exact Nat.lt_of_mul_lt_mul_left hstep
  obtain ⟨hb0, hb1, hb2, hb3, hb4⟩ := hB4
  have hA4eq : evalR a4 = a4.1.1 + W * a4.1.2.1 + W ^ 2 * a4.1.2.2.1 + W ^ 3 * a4.1.2.2.2
      + W ^ 4 * a4.2 := rfl
  rw [hA4eq] at hA4lt
  obtain ⟨hv, hd⟩ := csub4_spec a4.1.1 a4.1.2.1 a4.1.2.2.1 a4.1.2.2.2 a4.2
    hb0 hb1 hb2 hb3 hb4 hA4lt
  refine ⟨hv, ?_⟩
  rcases hd with h | h
  · rw [← hA4eq] at h
    rw [h, hVal, Nat.add_mul_mod_self_right]
  · rw [← hA4eq] at h
    calc (W ^ 4 * eval (csub4 a4.1.1 a4.1.2.1 a4.1.2.2.1 a4.1.2.2.2 a4.2)) % P
        = (W ^ 4 * eval (csub4 a4.1.1 a4.1.2.1 a4.1.2.2.1 a4.1.2.2.2 a4.2)
            + W ^ 4 * P) % P := by
          rw [Nat.add_mul_mod_self_right]
      _ = (eval e * 0x1000007a2000e90a1
            + (m1 + W * m2 + W ^ 2 * m3 + W ^ 3 * m4) * P) % P := by
          rw [← Nat.mul_add, h, hVal]
      _ = (eval e * 0x1000007a2000e90a1) % P := Nat.add_mul_mod_self_right _ _ _

/-- `toBytes` from the generated fiat code: serializes a non-Montgomery
field element to 32 bytes in little-endian order.  Go `uint8(x)` is
modelled as `x % 256`, `x >> 8` as `x >>> 8`. -/
def toBytes (arg1 : Element) : List Nat :=
  let x1 := arg1.l3
  let x2 := arg1.l2
  let x3 := arg1.l1
  let x4 := arg1.l0
  let x5 := x4 % 256 &&& 0xff
  let x6 := x4 >>> 8
  let x7 := x6 % 256 &&& 0xff
  let x8 := x6 >>> 8
  let x9 := x8 % 256 &&& 0xff
  let x10 := x8 >>> 8
  let x11 := x10 % 256 &&& 0xff
  let x12 := x10 >>> 8
  let x13 := x12 % 256 &&& 0xff
  let x14 := x12 >>> 8
  let x15 := x14 % 256 &&& 0xff
  let x16 := x14 >>> 8
  let x17 := x16 % 256 &&& 0xff
  let x18 := (x16 >>> 8) % 256
  let x19 := x3 % 256 &&& 0xff
  let x20 := x3 >>> 8
  let x21 := x20 % 256 &&& 0xff
  let x22 := x20 >>> 8
  let x23 := x22 % 256 &&& 0xff
  let x24 := x22 >>> 8
  let x25 := x24 % 256 &&& 0xff
  let x26 := x24 >>> 8
  let x27 := x26 % 256 &&& 0xff
  let x28 := x26 >>> 8
  let x29 := x28 % 256 &&& 0xff
  let x30 := x28 >>> 8
  let x31 := x30 % 256 &&& 0xff
  let x32 := (x30 >>> 8) % 256
  let x33 := x2 % 256 &&& 0xff
  let x34 := x2 >>> 8
  let x35 := x34 % 256 &&& 0xff
  let x36 := x34 >>> 8
  let x37 := x36 % 256 &&& 0xff
  let x38 := x36 >>> 8
  let x39 := x38 % 256 &&& 0xff
  let x40 := x38 >>> 8
  let x41 := x40 % 256 &&& 0xff
  let x42 := x40 >>> 8
  let x43 := x42 % 256 &&& 0xff
  let x44 := x42 >>> 8
  let x45 := x44 % 256 &&& 0xff
  let x46 := (x44 >>> 8) % 256
  let x47 := x1 % 256 &&& 0xff
  let x48 := x1 >>> 8
  let x49 := x48 % 256 &&& 0xff
  let x50 := x48 >>> 8
  let x51 := x50 % 256 &&& 0xff
  let x52 := x50 >>> 8
  let x53 := x52 % 256 &&& 0xff
  let x54 := x52 >>> 8
  let x55 := x54 % 256 &&& 0xff
  let x56 := x54 >>> 8
  let x57 := x56 % 256 &&& 0xff
  let x58 := x56 >>> 8
  let x59 := x58 % 256 &&& 0xff
  let x60 := (x58 >>> 8) % 256
  [x5, x7, x9, x11, x13, x15, x17, x18,
   x19, x21, x23, x25, x27, x29, x31, x32,
   x33, x35, x37, x39, x41, x43, x45, x46,
   x47, x49, x51, x53, x55, x57, x59, x60]

/-- `fromBytes` from the generated fiat code: deserializes 32 little-endian
bytes to a non-Montgomery field element.  Array indexing `arg1[k]` is
modelled as `arg1.getD k 0`; `uint64(b) << s` as `b <<< s`. -/
def fromBytes (arg1 : List Nat) : Element :=
  let x1 := arg1.getD 31 0 <<< 56
  let x2 := arg1.getD 30 0 <<< 48
  let x3 := arg1.getD 29 0 <<< 40
  let x4 := arg1.getD 28 0 <<< 32
  let x5 := arg1.getD 27 0 <<< 24
  let x6 := arg1.getD 26 0 <<< 16
  let x7 := arg1.getD 25 0 <<< 8
  let x8 := arg1.getD 24 0
  let x9 := arg1.getD 23 0 <<< 56
  let x10 := arg1.getD 22 0 <<< 48
  let x11 := arg1.getD 21 0 <<< 40
  let x12 := arg1.getD 20 0 <<< 32
  let x13 := arg1.getD 19 0 <<< 24
  let x14 := arg1.getD 18 0 <<< 16
  let x15 := arg1.getD 17 0 <<< 8
  let x16 := arg1.getD 16 0
  let x17 := arg1.getD 15 0 <<< 56
  let x18 := arg1.getD 14 0 <<< 48
  let x19 := arg1.getD 13 0 <<< 40
  let x20 := arg1.getD 12 0 <<< 32
  let x21 := arg1.getD 11 0 <<< 24
  let x22 := arg1.getD 10 0 <<< 16
  let x23 := arg1.getD 9 0 <<< 8
  let x24 := arg1.getD 8 0
  let x25 := arg1.getD 7 0 <<< 56
  let x26 := arg1.getD 6 0 <<< 48
  let x27 := arg1.getD 5 0 <<< 40
  let x28 := arg1.getD 4 0 <<< 32
  let x29 := arg1.getD 3 0 <<< 24
  let x30 := arg1.getD 2 0 <<< 16
  let x31 := arg1.getD 1 0 <<< 8
  let x32 := arg1.getD 0 0
  let x33 := x31 + x32
  let x34 := x30 + x33
  let x35 := x29 + x34
  let x36 := x28 + x35
  let x37 := x27 + x36
  let x38 := x26 + x37
  let x39 := x25 + x38
  let x40 := x23 + x24
  let x41 := x22 + x40
  let x42 := x21 + x41
  let x43 := x20 + x42
  let x44 := x19 + x43
  let x45 := x18 + x44
  let x46 := x17 + x45
  let x47 := x15 + x16
  let x48 := x14 + x47
  let x49 := x13 + x48
  let x50 := x12 + x49
  let x51 := x11 + x50
  let x52 := x10 + x51
  let x53 := x9 + x52
  let x54 := x7 + x8
  let x55 := x6 + x54
  let x56 := x5 + x55
  let x57 := x4 + x56
  let x58 := x3 + x57
  let x59 := x2 + x58
  let x60 := x1 + x59
  ⟨x39, x46, x53, x60⟩

/-- `invertEndianness` swaps `v[i]` and `v[len-1-i]` for every
`i < len/2`, i.e. it reverses the byte slice. -/
def invertEndianness (v : List Nat) : List Nat := v.reverse

/-- `Element.Bytes` (through the outlined `Element.bytes`): convert out of
Montgomery form, serialize little-endian, and reverse to big-endian. -/
def elemBytes (e : Element) : List Nat :=
  invertEndianness (toBytes (fromMontgomery e))

/-- The comparison loop of `Element.SetBytes`: scanning from the most
significant byte, `true` means some byte of `v` exceeds the corresponding
byte of `m` before a smaller byte appears — the non-canonical reject. -/
def setBytesReject : List Nat → List Nat → Bool
  | v :: vs, m :: ms =>
    if v < m then false
    else if v > m then true
    else setBytesReject vs ms
  | _, _ => false

/-- The `minusOneEncoding` computed inside `Element.SetBytes`: the bytes of
`0 - 1 mod p`, the highest canonical encoding. -/
def minusOneEncoding : List Nat := elemBytes (elemSub elemZero elemOne)

/-- `Element.SetBytes` on receiver `e`: result value of the receiver and
the success flag (`false` means an error was returned, in which case the
receiver keeps its value: the Go code writes `e` only through the final
`toMontgomery`). -/
def elemSetBytes (e : Element) (v : List Nat) : Element × Bool :=
  if v.length ≠ 32 then (e, false)
  else if setBytesReject v minusOneEncoding then (e, false)
  else (toMontgomery (fromBytes (invertEndianness v)), true)

/-- The big-endian integer value of a byte string (the "value" the spec
compares against p). -/
def beVal (v : List Nat) : Nat := v.foldl (fun acc b => acc * 256 + b) 0

/-- Masking an already-reduced byte with `0xff` is the identity. -/
theorem mod256_land (x : Nat) : x % 256 &&& 0xff = x % 256 := by
  have h : (0xff : Nat) = 2 ^ 8 - 1 := by decide
  rw [h]
  exact Nat.and_pow_two_sub_one_of_lt_two_pow (by omega)

/-- Reading any index of a byte string (default 0) stays below 256. -/
theorem getD_lt256 (w : List Nat) (hv : ∀ b ∈ w, b < 256) (k : Nat) :
    w.getD k 0 < 256 := by
  rcases Nat.lt_or_ge k w.length with h | h
  · rw [List.getD_eq_getElem w 0 h]
    exact hv _ (List.getElem_mem h)
  · rw [List.getD_eq_default w 0 h]
    decide

/-- The big-endian fold from a nonzero accumulator. -/
theorem beVal_foldl (as : List Nat) (acc : Nat) :
    List.foldl (fun a b => a * 256 + b) acc as = acc * 256 ^ as.length + beVal as := by
  induction as generalizing acc with
  | nil => simp [beVal]
  | cons b bs ih =>
    simp only [List.foldl, beVal, List.length_cons]
    rw [ih, ih]
    ring

/-- Peeling the leading byte off a big-endian value. -/
theorem beVal_cons (b : Nat) (bs : List Nat) :
    beVal (b :: bs) = b * 256 ^ bs.length + beVal bs := by
  show List.foldl (fun a c => a * 256 + c) 0 (b :: bs) = _
  simp only [List.foldl]
  rw [beVal_foldl]
  ring

/-- A byte string's big-endian value is below `256 ^ length`. -/
theorem beVal_lt (v : List Nat) (hv : ∀ b ∈ v, b < 256) :
    beVal v < 256 ^ v.length := by
  induction v with
  | nil => simp [beVal]
  | cons b bs ih =>
    have hb : b < 256 := hv b (by simp)
    have hbs : ∀ x ∈ bs, x < 256 := fun x hx => hv x (by simp [hx])
    have h2 := ih hbs
    rw [beVal_cons, List.length_cons, pow_succ]
    have h1 : b * 256 ^ bs.length ≤ 255 * 256 ^ bs.length :=
      Nat.mul_le_mul_right _ (by omega)
    omega

/-- The `SetBytes` scan rejects exactly the byte strings whose big-endian
value exceeds that of the bound (for equal lengths and byte ranges). -/
theorem setBytesReject_iff (v : List Nat) : ∀ (m : List Nat),
    v.length = m.length → (∀ b ∈ v, b < 256) → (∀ b ∈ m, b < 256) →
    (setBytesReject v m = true ↔ beVal m < beVal v) := by
  induction v with
  | nil =>
    intro m hlen _ _
    cases m with
    | nil => simp [setBytesReject]
    | cons c cs => simp at hlen
  | cons a as ih =>
    intro m hlen hv hm
    cases m with
    | nil => simp at hlen
    | cons c cs =>
      have ha : a < 256 := hv a (by simp)
      have hc : c < 256 := hm c (by simp)
      have has : ∀ b ∈ as, b < 256 := fun x hx => hv x (by simp [hx])
      have hcs : ∀ b ∈ cs, b < 256 := fun x hx => hm x (by simp [hx])
      have hlen' : as.length = cs.length := by simpa using hlen
      rw [beVal_cons, beVal_cons, hlen']
      simp only [setBytesReject]
      by_cases h1 : a < c
      · simp only [if_pos h1, Bool.false_eq_true, false_iff, not_lt]
        have hbound := beVal_lt as has
        rw [hlen'] at hbound
        have hstep : a * 256 ^ cs.length + 256 ^ cs.length ≤ c * 256 ^ cs.length := by
          have h3 : (a + 1) * 256 ^ cs.length ≤ c * 256 ^ cs.length :=
            Nat.mul_le_mul_right _ (by omega)
          have h4 : (a + 1) * 256 ^ cs.length
              = a * 256 ^ cs.length + 256 ^ cs.length := by ring
          omega
        omega
      · by_cases h2 : a > c
        · simp only [if_neg h1, if_pos h2, true_iff]
          have hbound := beVal_lt cs hcs
          have hstep : c * 256 ^ cs.length + 256 ^ cs.length ≤ a * 256 ^ cs.length := by
            have h3 : (c + 1) * 256 ^ cs.length ≤ a * 256 ^ cs.length :=
              Nat.mul_le_mul_right _ (by omega)
            have h4 : (c + 1) * 256 ^ cs.length
                = c * 256 ^ cs.length + 256 ^ cs.length := by ring
            omega
          omega
        · have hac : a = c := by omega
          subst hac
          simp only [if_neg h1, if_neg h2]
          rw [ih cs hlen' has hcs]
          omega

/-- `fromBytes` output limbs fit in 64 bits when the bytes are in range. -/
theorem fromBytes_bounded (w : List Nat) (hv : ∀ b ∈ w, b < 256) :
    Bounded (fromBytes w) := by
  have h0 := getD_lt256 w hv 0
  have h1 := getD_lt256 w hv 1
  have h2 := getD_lt256 w hv 2
  have h3 := getD_lt256 w hv 3
  have h4 := getD_lt256 w hv 4
  have h5 := getD_lt256 w hv 5
  have h6 := getD_lt256 w hv 6
  have h7 := getD_lt256 w hv 7
  have h8 := getD_lt256 w hv 8
  have h9 := getD_lt256 w hv 9
  have h10 := getD_lt256 w hv 10
  have h11 := getD_lt256 w hv 11
  have h12 := getD_lt256 w hv 12
  have h13 := getD_lt256 w hv 13
  have h14 := getD_lt256 w hv 14
  have h15 := getD_lt256 w hv 15
  have h16 := getD_lt256 w hv 16
  have h17 := getD_lt256 w hv 17
  have h18 := getD_lt256 w hv 18
  have h19 := getD_lt256 w hv 19
  have h20 := getD_lt256 w hv 20
  have h21 := getD_lt256 w hv 21
  have h22 := getD_lt256 w hv 22
  have h23 := getD_lt256 w hv 23
  have h24 := getD_lt256 w hv 24
  have h25 := getD_lt256 w hv 25
  have h26 := getD_lt256 w hv 26
  have h27 := getD_lt256 w hv 27
  have h28 := getD_lt256 w hv 28
  have h29 := getD_lt256 w hv 29
  have h30 := getD_lt256 w hv 30
  have h31 := getD_lt256 w hv 31
  simp only [fromBytes, Bounded, Nat.shiftLeft_eq]
  unfold W
  omega

/-- `toBytes` inverts `fromBytes` on 32-byte little-endian strings. -/
theorem toBytes_fromBytes (w : List Nat) (hlen : w.length = 32)
    (hv : ∀ b ∈ w, b < 256) : toBytes (fromBytes w) = w := by
  obtain ⟨b0, w, rfl⟩ : ∃ b t, w = b :: t := by
    cases w with
    | nil => simp at hlen
    | cons a t => exact ⟨a, t, rfl⟩
  obtain ⟨b1, w, rfl⟩ : ∃ b t, w = b :: t := by
    cases w with
    | nil => simp at hlen
    | cons a t => exact ⟨a, t, rfl⟩
  obtain ⟨b2, w, rfl⟩ : ∃ b t, w = b :: t := by
    cases w with
    | nil => simp at hlen
    | cons a t => exact ⟨a, t, rfl⟩
  obtain ⟨b3, w, rfl⟩ : ∃ b t, w = b :: t := by
    cases w with
    | nil => simp at hlen
    | cons a t => exact ⟨a, t, rfl⟩
  obtain ⟨b4, w, rfl⟩ : ∃ b t, w = b :: t := by
    cases w with
    | nil => simp at hlen
    | cons a t => exact ⟨a, t, rfl⟩
  obtain ⟨b5, w, rfl⟩ : ∃ b t, w = b :: t := by
    cases w with
    | nil => simp at hlen
    | cons a t => exact ⟨a, t, rfl⟩
  obtain ⟨b6, w, rfl⟩ : ∃ b t, w = b :: t := by
    cases w with
    | nil => simp at hlen
    | cons a t => exact ⟨a, t, rfl⟩
  obtain ⟨b7, w, rfl⟩ : ∃ b t, w = b :: t := by
    cases w with
    | nil => simp at hlen
    | cons a t => exact ⟨a, t, rfl⟩
  obtain ⟨b8, w, rfl⟩ : ∃ b t, w = b :: t := by
    cases w with
    | nil => simp at hlen
    | cons a t => exact ⟨a, t, rfl⟩
  obtain ⟨b9, w, rfl⟩ : ∃ b t, w = b :: t := by
    cases w with
    | nil => simp at hlen
    | cons a t => exact ⟨a, t, rfl⟩
  obtain ⟨b10, w, rfl⟩ : ∃ b t, w = b :: t := by
    cases w with
    | nil => simp at hlen
    | cons a t => exact ⟨a, t, rfl⟩
  obtain ⟨b11, w, rfl⟩ : ∃ b t, w = b :: t := by
    cases w with
    | nil => simp at hlen
    | cons a t => exact ⟨a, t, rfl⟩
  obtain ⟨b12, w, rfl⟩ : ∃ b t, w = b :: t := by
    cases w with
    | nil => simp at hlen
    | cons a t => exact ⟨a, t, rfl⟩
  obtain ⟨b13, w, rfl⟩ : ∃ b t, w = b :: t := by
    cases w with
    | nil => simp at hlen
    | cons a t => exact ⟨a, t, rfl⟩
  obtain ⟨b14, w, rfl⟩ : ∃ b t, w = b :: t := by
    cases w with
    | nil => simp at hlen
    | cons a t => exact ⟨a, t, rfl⟩
  obtain ⟨b15, w, rfl⟩ : ∃ b t, w = b :: t := by
    cases w with
    | nil => simp at hlen
    | cons a t => exact ⟨a, t, rfl⟩
  obtain ⟨b16, w, rfl⟩ : ∃ b t, w = b :: t := by
    cases w with
    | nil => simp at hlen
    | cons a t => exact ⟨a, t, rfl⟩
  obtain ⟨b17, w, rfl⟩ : ∃ b t, w = b :: t := by
    cases w with
    | nil => simp at hlen
    | cons a t => exact ⟨a, t, rfl⟩
  obtain ⟨b18, w, rfl⟩ : ∃ b t, w = b :: t := by
    cases w with
    | nil => simp at hlen
    | cons a t => exact ⟨a, t, rfl⟩
  obtain ⟨b19, w, rfl⟩ : ∃ b t, w = b :: t := by
    cases w with
    | nil => simp at hlen
    | cons a t => exact ⟨a, t, rfl⟩
  obtain ⟨b20, w, rfl⟩ : ∃ b t, w = b :: t := by
    cases w with
    | nil => simp at hlen
    | cons a t => exact ⟨a, t, rfl⟩
  obtain ⟨b21, w, rfl⟩ : ∃ b t, w = b :: t := by
    cases w with
    | nil => simp at hlen
    | cons a t => exact ⟨a, t, rfl⟩
  obtain ⟨b22, w, rfl⟩ : ∃ b t, w = b :: t := by
    cases w with
    | nil => simp at hlen
    | cons a t => exact ⟨a, t, rfl⟩
  obtain ⟨b23, w, rfl⟩ : ∃ b t, w = b :: t := by
    cases w with
    | nil => simp at hlen
    | cons a t => exact ⟨a, t, rfl⟩
  obtain ⟨b24, w, rfl⟩ : ∃ b t, w = b :: t := by
    cases w with
    | nil => simp at hlen
    | cons a t => exact ⟨a, t, rfl⟩
  obtain ⟨b25, w, rfl⟩ : ∃ b t, w = b :: t := by
    cases w with
    | nil => simp at hlen
    | cons a t => exact ⟨a, t, rfl⟩
  obtain ⟨b26, w, rfl⟩ : ∃ b t, w = b :: t := by
    cases w with
    | nil => simp at hlen
    | cons a t => exact ⟨a, t, rfl⟩
  obtain ⟨b27, w, rfl⟩ : ∃ b t, w = b :: t := by
    cases w with
    | nil => simp at hlen
    | cons a t => exact ⟨a, t, rfl⟩
  obtain ⟨b28, w, rfl⟩ : ∃ b t, w = b :: t := by
    cases w with
    | nil => simp at hlen
    | cons a t => exact ⟨a, t, rfl⟩
  obtain ⟨b29, w, rfl⟩ : ∃ b t, w = b :: t := by
    cases w with
    | nil => simp at hlen
    | cons a t => exact ⟨a, t, rfl⟩
  obtain ⟨b30, w, rfl⟩ : ∃ b t, w = b :: t := by
    cases w with
    | nil => simp at hlen
    | cons a t => exact ⟨a, t, rfl⟩
  obtain ⟨b31, w, rfl⟩ : ∃ b t, w = b :: t := by
    cases w with
    | nil => simp at hlen
    | cons a t => exact ⟨a, t, rfl⟩
  have hnil : w = [] := by
    cases w with
    | nil => rfl
    | cons a t => simp at hlen
  subst hnil
  have h0 : b0 < 256 := hv b0 (by simp)
  have h1 : b1 < 256 := hv b1 (by simp)
  have h2 : b2 < 256 := hv b2 (by simp)
  have h3 : b3 < 256 := hv b3 (by simp)
  have h4 : b4 < 256 := hv b4 (by simp)
  have h5 : b5 < 256 := hv b5 (by simp)
  have h6 : b6 < 256 := hv b6 (by simp)
  have h7 : b7 < 256 := hv b7 (by simp)
  have h8 : b8 < 256 := hv b8 (by simp)
  have h9 : b9 < 256 := hv b9 (by simp)
  have h10 : b10 < 256 := hv b10 (by simp)
  have h11 : b11 < 256 := hv b11 (by simp)
  have h12 : b12 < 256 := hv b12 (by simp)
  have h13 : b13 < 256 := hv b13 (by simp)
  have h14 : b14 < 256 := hv b14 (by simp)
  have h15 : b15 < 256 := hv b15 (by simp)
  have h16 : b16 < 256 := hv b16 (by simp)
  have h17 : b17 < 256 := hv b17 (by simp)
  have h18 : b18 < 256 := hv b18 (by simp)
  have h19 : b19 < 256 := hv b19 (by simp)
  have h20 : b20 < 256 := hv b20 (by simp)
  have h21 : b21 < 256 := hv b21 (by simp)
  have h22 : b22 < 256 := hv b22 (by simp)
  have h23 : b23 < 256 := hv b23 (by simp)
  have h24 : b24 < 256 := hv b24 (by simp)
  have h25 : b25 < 256 := hv b25 (by simp)
  have h26 : b26 < 256 := hv b26 (by simp)
  have h27 : b27 < 256 := hv b27 (by simp)
  have h28 : b28 < 256 := hv b28 (by simp)
  have h29 : b29 < 256 := hv b29 (by simp)
  have h30 : b30 < 256 := hv b30 (by simp)
  have h31 : b31 < 256 := hv b31 (by simp)
  clear hlen hv
  simp only [toBytes, fromBytes, List.getD_cons_zero, List.getD_cons_succ,
    Nat.shiftLeft_eq, Nat.shiftRight_eq_div_pow, mod256_land, List.cons.injEq,
    and_true]
  norm_num
  omega

/-- The element deserialized from the little-endian reversal of a
32-byte big-endian string evaluates to that string's big-endian value. -/
theorem eval_fromBytes_rev (w : List Nat) (hlen : w.length = 32) :
    eval (fromBytes (invertEndianness w)) = beVal w := by
  obtain ⟨b0, w, rfl⟩ : ∃ b t, w = b :: t := by
    cases w with
    | nil => simp at hlen
    | cons a t => exact ⟨a, t, rfl⟩
  obtain ⟨b1, w, rfl⟩ : ∃ b t, w = b :: t := by
    cases w with
    | nil => simp at hlen
    | cons a t => exact ⟨a, t, rfl⟩
  obtain ⟨b2, w, rfl⟩ : ∃ b t, w = b :: t := by
    cases w with
    | nil => simp at hlen
    | cons a t => exact ⟨a, t, rfl⟩
  obtain ⟨b3, w, rfl⟩ : ∃ b t, w = b :: t := by
    cases w with
    | nil => simp at hlen
    | cons a t => exact ⟨a, t, rfl⟩
  obtain ⟨b4, w, rfl⟩ : ∃ b t, w = b :: t := by
    cases w with
    | nil => simp at hlen
    | cons a t => exact ⟨a, t, rfl⟩
  obtain ⟨b5, w, rfl⟩ : ∃ b t, w = b :: t := by
    cases w with
    | nil => simp at hlen
    | cons a t => exact ⟨a, t, rfl⟩
  obtain ⟨b6, w, rfl⟩ : ∃ b t, w = b :: t := by
    cases w with
    | nil => simp at hlen
    | cons a t => exact ⟨a, t, rfl⟩
  obtain ⟨b7, w, rfl⟩ : ∃ b t, w = b :: t := by
    cases w with
    | nil => simp at hlen
    | cons a t => exact ⟨a, t, rfl⟩
  obtain ⟨b8, w, rfl⟩ : ∃ b t, w = b :: t := by
    cases w with
    | nil => simp at hlen
    | cons a t => exact ⟨a, t, rfl⟩
  obtain ⟨b9, w, rfl⟩ : ∃ b t, w = b :: t := by
    cases w with
    | nil => simp at hlen
    | cons a t => exact ⟨a, t, rfl⟩
  obtain ⟨b10, w, rfl⟩ : ∃ b t, w = b :: t := by
    cases w with
    | nil => simp at hlen
    | cons a t => exact ⟨a, t, rfl⟩
  obtain ⟨b11, w, rfl⟩ : ∃ b t, w = b :: t := by
    cases w with
    | nil => simp at hlen
    | cons a t => exact ⟨a, t, rfl⟩
  obtain ⟨b12, w, rfl⟩ : ∃ b t, w = b :: t := by
    cases w with
    | nil => simp at hlen
    | cons a t => exact ⟨a, t, rfl⟩
  obtain ⟨b13, w, rfl⟩ : ∃ b t, w = b :: t := by
    cases w with
    | nil => simp at hlen
    | cons a t => exact ⟨a, t, rfl⟩
  obtain ⟨b14, w, rfl⟩ : ∃ b t, w = b :: t := by
    cases w with
    | nil => simp at hlen
    | cons a t => exact ⟨a, t, rfl⟩
  obtain ⟨b15, w, rfl⟩ : ∃ b t, w = b :: t := by
    cases w with
    | nil => simp at hlen
    | cons a t => exact ⟨a, t, rfl⟩
  obtain ⟨b16, w, rfl⟩ : ∃ b t, w = b :: t := by
    cases w with
    | nil => simp at hlen
    | cons a t => exact ⟨a, t, rfl⟩
  obtain ⟨b17, w, rfl⟩ : ∃ b t, w = b :: t := by
    cases w with
    | nil => simp at hlen
    | cons a t => exact ⟨a, t, rfl⟩
  obtain ⟨b18, w, rfl⟩ : ∃ b t, w = b :: t := by
    cases w with
    | nil => simp at hlen
    | cons a t => exact ⟨a, t, rfl⟩
  obtain ⟨b19, w, rfl⟩ : ∃ b t, w = b :: t := by
    cases w with
    | nil => simp at hlen
    | cons a t => exact ⟨a, t, rfl⟩
  obtain ⟨b20, w, rfl⟩ : ∃ b t, w = b :: t := by
    cases w with
    | nil => simp at hlen
    | cons a t => exact ⟨a, t, rfl⟩
  obtain ⟨b21, w, rfl⟩ : ∃ b t, w = b :: t := by
    cases w with
    | nil => simp at hlen
    | cons a t => exact ⟨a, t, rfl⟩
  obtain ⟨b22, w, rfl⟩ : ∃ b t, w = b :: t := by
    cases w with
    | nil => simp at hlen
    | cons a t => exact ⟨a, t, rfl⟩
  obtain ⟨b23, w, rfl⟩ : ∃ b t, w = b :: t := by
    cases w with
    | nil => simp at hlen
    | cons a t => exact ⟨a, t, rfl⟩
  obtain ⟨b24, w, rfl⟩ : ∃ b t, w = b :: t := by
    cases w with
    | nil => simp at hlen
    | cons a t => exact ⟨a, t, rfl⟩
  obtain ⟨b25, w, rfl⟩ : ∃ b t, w = b :: t := by
    cases w with
    | nil => simp at hlen
    | cons a t => exact ⟨a, t, rfl⟩
  obtain ⟨b26, w, rfl⟩ : ∃ b t, w = b :: t := by
    cases w with
    | nil => simp at hlen
    | cons a t => exact ⟨a, t, rfl⟩
  obtain ⟨b27, w, rfl⟩ : ∃ b t, w = b :: t := by
    cases w with
    | nil => simp at hlen
    | cons a t => exact ⟨a, t, rfl⟩
  obtain ⟨b28, w, rfl⟩ : ∃ b t, w = b :: t := by
    cases w with
    | nil => simp at hlen
    | cons a t => exact ⟨a, t, rfl⟩
  obtain ⟨b29, w, rfl⟩ : ∃ b t, w = b :: t := by
    cases w with
    | nil => simp at hlen
    | cons a t => exact ⟨a, t, rfl⟩
  obtain ⟨b30, w, rfl⟩ : ∃ b t, w = b :: t := by
    cases w with
    | nil => simp at hlen
    | cons a t => exact ⟨a, t, rfl⟩
  obtain ⟨b31, w, rfl⟩ : ∃ b t, w = b :: t := by
    cases w with
    | nil => simp at hlen
    | cons a t => exact ⟨a, t, rfl⟩
  have hnil : w = [] := by
    cases w with
    | nil => rfl
    | cons a t => simp at hlen
  subst hnil
  have hrev : invertEndianness [b0, b1, b2, b3, b4, b5, b6, b7, b8, b9, b10, b11, b12, b13, b14, b15, b16, b17, b18, b19, b20, b21, b22, b23, b24, b25, b26, b27, b28, b29, b30, b31] = [b31, b30, b29, b28, b27, b26, b25, b24, b23, b22, b21, b20, b19, b18, b17, b16, b15, b14, b13, b12, b11, b10, b9, b8, b7, b6, b5, b4, b3, b2, b1, b0] := rfl
  rw [hrev]
  simp only [eval, fromBytes, List.getD_cons_zero, List.getD_cons_succ,
    Nat.shiftLeft_eq, beVal, List.foldl]
  unfold W
  ring


/-- Bounded elements with equal values are equal: limbs are the base-2^64
digits of the value. -/
theorem eval_inj (a b : Element) (ha : Bounded a) (hb : Bounded b)
    (h : eval a = eval b) : a = b := by
  obtain ⟨ha0, ha1, ha2, ha3⟩ := ha
  obtain ⟨hb0, hb1, hb2, hb3⟩ := hb
  obtain ⟨a0, a1, a2, a3⟩ := a
  obtain ⟨b0, b1, b2, b3⟩ := b
  simp only [eval] at h ha0 ha1 ha2 ha3 hb0 hb1 hb2 hb3
  simp only [Element.mk.injEq]
  unfold W at *
  omega

/-- Converting to Montgomery form and back is the identity on valid
elements. -/
theorem fromM_toM (u : Element) (hu : Valid u) :
    fromMontgomery (toMontgomery u) = u := by
  obtain ⟨hT, hTc⟩ := toMontgomery_correct u hu
  obtain ⟨hF, hFc⟩ := fromMontgomery_correct (toMontgomery u) hT
  have hFc' : Nat.ModEq P (W ^ 4 * eval (fromMontgomery (toMontgomery u)))
      (eval (toMontgomery u)) := hFc
  have hTc' : Nat.ModEq P (W ^ 4 * eval (toMontgomery u))
      (eval u * 0x1000007a2000e90a1) := hTc
  have hstep : Nat.ModEq P (W ^ 8 * eval (fromMontgomery (toMontgomery u)))
      (eval u * 0x1000007a2000e90a1) := by
    have h2 := hFc'.mul_left (W ^ 4)
    have h3 : W ^ 8 * eval (fromMontgomery (toMontgomery u))
        = W ^ 4 * (W ^ 4 * eval (fromMontgomery (toMontgomery u))) := by ring
    rw [h3]
    exact h2.trans hTc'
  have hC : Nat.ModEq P 0x1000007a2000e90a1 (W ^ 8) := by
    show _ % _ = _ % _
    unfold W P
    decide
  have hstep2 : Nat.ModEq P (W ^ 8 * eval (fromMontgomery (toMontgomery u)))
      (W ^ 8 * eval u) := by
    refine hstep.trans ?_
    have h4 := hC.mul_left (eval u)
    have h5 : eval u * W ^ 8 = W ^ 8 * eval u := Nat.mul_comm _ _
    exact h5 ▸ h4
  have hI : Nat.ModEq P
      (W ^ 8 * 0x35c23d449f7146209606e13d0c0528c7b64215332a7f3bb9ac91b0be0a7244f9)
      1 := by
    show _ % _ = _ % _
    unfold W P
    decide
  have hXu : Nat.ModEq P (eval (fromMontgomery (toMontgomery u))) (eval u) := by
    calc eval (fromMontgomery (toMontgomery u))
        = 1 * eval (fromMontgomery (toMontgomery u)) :=
          (Nat.one_mul _).symm
      _ ≡ (W ^ 8 * 0x35c23d449f7146209606e13d0c0528c7b64215332a7f3bb9ac91b0be0a7244f9)
            * eval (fromMontgomery (toMontgomery u)) [MOD P] :=
          hI.symm.mul_right _
      _ = 0x35c23d449f7146209606e13d0c0528c7b64215332a7f3bb9ac91b0be0a7244f9
            * (W ^ 8 * eval (fromMontgomery (toMontgomery u))) := by ring
      _ ≡ 0x35c23d449f7146209606e13d0c0528c7b64215332a7f3bb9ac91b0be0a7244f9
            * (W ^ 8 * eval u) [MOD P] := hstep2.mul_left _
      _ = (W ^ 8 * 0x35c23d449f7146209606e13d0c0528c7b64215332a7f3bb9ac91b0be0a7244f9)
            * eval u := by ring
      _ ≡ 1 * eval u [MOD P] := hI.mul_right _
      _ = eval u := Nat.one_mul _
  have heq : eval (fromMontgomery (toMontgomery u)) = eval u := by
    have h6 := hXu
    rwa [Nat.ModEq, Nat.mod_eq_of_lt hF.2, Nat.mod_eq_of_lt hu.2] at h6
  exact eval_inj _ _ hF.1 hu.1 heq


/-- The `minusOneEncoding` computed by `SetBytes` is the 32 big-endian
bytes of `p - 1`. -/
theorem minusOneEncoding_eq :
    minusOneEncoding =
      [0xff, 0xff, 0xff, 0xff, 0xff, 0xff, 0xff, 0xff,
       0xff, 0xff, 0xff, 0xff, 0xff, 0xff, 0xff, 0xff,
       0xff, 0xff, 0xff, 0xff, 0xff, 0xff, 0xff, 0xff,
       0xff, 0xff, 0xff, 0xfe, 0xff, 0xff, 0xfc, 0x2e] := by decide

/-- The computed `minusOneEncoding` has 32 bytes, all in range, and
encodes `p - 1`. -/
theorem minusOneEncoding_spec :
    minusOneEncoding.length = 32 ∧ (∀ b ∈ minusOneEncoding, b < 256) ∧
      beVal minusOneEncoding = P - 1 := by
  rw [minusOneEncoding_eq]
  decide


/-- C5: `Element.SetBytes` succeeds exactly on 32-byte strings whose
big-endian value is below `p = 2^256 - 2^32 - 977`; on failure it returns
an error and the receiver is unchanged. -/
theorem elemSetBytes_correct (e : Element) (v : List Nat)
    (hv : ∀ b ∈ v, b < 256) :
    ((elemSetBytes e v).2 = true ↔ v.length = 32 ∧ beVal v < P) ∧
    ((elemSetBytes e v).2 = false → (elemSetBytes e v).1 = e) := by
  obtain ⟨hmlen, hmbytes, hmval⟩ := minusOneEncoding_spec
  have hPpos : 0 < P := by unfold P; omega
  by_cases hlen : v.length = 32
  · have hiff := setBytesReject_iff v minusOneEncoding
      (by rw [hlen, hmlen]) hv hmbytes
    rw [hmval] at hiff
    cases hrej : setBytesReject v minusOneEncoding with
    | true =>
      have hgt := hiff.mp hrej
      have hEq : elemSetBytes e v = (e, false) := by
        simp [elemSetBytes, hlen, hrej]
      rw [hEq]
      refine ⟨?_, fun _ => rfl⟩
      simp only [Bool.false_eq_true, false_iff]
      rintro ⟨-, hlt⟩
      omega
    | false =>
      have hloe : beVal v ≤ P - 1 := by
        by_contra hcon
        have h5 := hiff.mpr (by omega)
        rw [hrej] at h5
        exact Bool.false_ne_true h5
      have hEq : elemSetBytes e v
          = (toMontgomery (fromBytes (invertEndianness v)), true) := by
        simp [elemSetBytes, hlen, hrej]
      rw [hEq]
      exact ⟨⟨fun _ => ⟨hlen, by omega⟩, fun _ => rfl⟩, fun hf => by simp at hf⟩
  · have hEq : elemSetBytes e v = (e, false) := by
      simp [elemSetBytes, hlen]
    rw [hEq]
    refine ⟨?_, fun _ => rfl⟩
    simp only [Bool.false_eq_true, false_iff]
    rintro ⟨h32, -⟩
    exact hlen h32

/-- C5 witness: the all-zero 32-byte string is accepted. -/
theorem elemSetBytes_correct_witness :
    (∀ b ∈ (List.replicate 32 0 : List Nat), b < 256) ∧
    (((elemSetBytes elemOne (List.replicate 32 0)).2 = true ↔
        (List.replicate 32 0 : List Nat).length = 32 ∧
          beVal (List.replicate 32 0) < P) ∧
     ((elemSetBytes elemOne (List.replicate 32 0)).2 = false →
        (elemSetBytes elemOne (List.replicate 32 0)).1 = elemOne)) :=
  ⟨by decide, elemSetBytes_correct elemOne (List.replicate 32 0) (by decide)⟩

/-- C6: on canonical 32-byte encodings, `Bytes ∘ SetBytes` is the
identity. -/
theorem setBytes_bytes_roundtrip (e : Element) (v : List Nat)
    (hlen : v.length = 32) (hv : ∀ b ∈ v, b < 256) (hval : beVal v < P) :
    elemBytes (elemSetBytes e v).1 = v := by
  obtain ⟨hmlen, hmbytes, hmval⟩ := minusOneEncoding_spec
  have hPpos : 0 < P := by unfold P; omega
  have hiff := setBytesReject_iff v minusOneEncoding
    (by rw [hlen, hmlen]) hv hmbytes
  rw [hmval] at hiff
  have hrej : setBytesReject v minusOneEncoding = false := by
    cases hb : setBytesReject v minusOneEncoding with
    | false => rfl
    | true =>
      have := hiff.mp hb
      omega
  have hEq : elemSetBytes e v
      = (toMontgomery (fromBytes (invertEndianness v)), true) := by
    simp [elemSetBytes, hlen, hrej]
  rw [hEq]
  show elemBytes (toMontgomery (fromBytes (invertEndianness v))) = v
  have hBu : Bounded (fromBytes (invertEndianness v)) :=
    fromBytes_bounded _ (fun b hb => hv b (by
      simpa [invertEndianness] using hb))
  have hEu : eval (fromBytes (invertEndianness v)) = beVal v :=
    eval_fromBytes_rev v hlen
  have hVu : Valid (fromBytes (invertEndianness v)) :=
    ⟨hBu, by rw [hEu]; exact hval⟩
  have hft := fromM_toM (fromBytes (invertEndianness v)) hVu
  simp only [elemBytes, hft]
  rw [toBytes_fromBytes (invertEndianness v)
    (by simp [invertEndianness, hlen])
    (fun b hb => hv b (by simpa [invertEndianness] using hb))]
  simp [invertEndianness]

/-- C6 witness: the canonical encoding of 1 roundtrips. -/
theorem setBytes_bytes_roundtrip_witness :
    ((List.replicate 31 0 ++ [1] : List Nat).length = 32 ∧
      (∀ b ∈ (List.replicate 31 0 ++ [1] : List Nat), b < 256) ∧
      beVal (List.replicate 31 0 ++ [1]) < P) ∧
    elemBytes (elemSetBytes elemZero (List.replicate 31 0 ++ [1])).1 =
      List.replicate 31 0 ++ [1] :=
  ⟨⟨by decide, by decide, by decide⟩,
   setBytes_bytes_roundtrip elemZero (List.replicate 31 0 ++ [1])
     (by decide) (by decide) (by decide)⟩

/-- Modular exponentiation by repeated squaring, structurally recursive
on an explicit fuel so that the kernel can evaluate it on literals. -/
def powMod (m a e fuel : Nat) : Nat :=
  match fuel with
  | 0 => 1 % m
  | f + 1 =>
    if e = 0 then 1 % m
    else if e % 2 = 0 then powMod m (a * a % m) (e / 2) f
    else a * powMod m (a * a % m) (e / 2) f % m

theorem powMod_eq (m a e fuel : Nat) (h : e < 2 ^ fuel) :
    powMod m a e fuel = a ^ e % m := by
  induction fuel generalizing a e with
  | zero =>
    have he : e = 0 := by simpa using h
    subst he
    simp [powMod]
  | succ f ih =>
    by_cases he : e = 0
    · subst he
      simp [powMod]
    · have hlt : e / 2 < 2 ^ f := by
        have h2 := Nat.pow_succ 2 f
        omega
      by_cases hpar : e % 2 = 0
      · simp only [powMod, if_neg he, if_pos hpar]
        rw [ih _ _ hlt, ← Nat.pow_mod, ← pow_two, ← pow_mul]
        congr 2
        omega
      · simp only [powMod, if_neg he, if_neg hpar]
        rw [ih _ _ hlt, ← Nat.pow_mod]
        have hmm : (a * a) ^ (e / 2) % m % m = (a * a) ^ (e / 2) % m :=
          Nat.mod_mod_of_dvd _ (dvd_refl m)
        calc a * ((a * a) ^ (e / 2) % m) % m
            = (a % m) * ((a * a) ^ (e / 2) % m % m) % m := Nat.mul_mod _ _ _
          _ = (a % m) * ((a * a) ^ (e / 2) % m) % m := by rw [hmm]
          _ = a * (a * a) ^ (e / 2) % m := (Nat.mul_mod _ _ _).symm
          _ = a ^ (2 * (e / 2) + 1) % m := by
              congr 1
              ring
          _ = a ^ e % m := by
              congr 2
              omega

/-- Lucas primality from an explicit prime-factor list of `n - 1`. -/
theorem pratt_step (n a : Nat) (ps : List Nat)
    (hcov : ∀ q : Nat, q.Prime → q ∣ (n - 1) → q ∈ ps)
    (hfer : a ^ (n - 1) % n = 1 % n)
    (hdiv : ∀ q ∈ ps, a ^ ((n - 1) / q) % n ≠ 1 % n) :
    Nat.Prime n := by
  refine lucas_primality n (a : ZMod n) ?_ ?_
  · have key : ((a : ZMod n)) ^ (n - 1) = ((a ^ (n - 1) % n : Nat) : ZMod n) := by
      rw [ZMod.natCast_mod, Nat.cast_pow]
    rw [key, hfer, ZMod.natCast_mod, Nat.cast_one]
  · intro q hq hdvd
    have hmem := hcov q hq hdvd
    have key : ((a : ZMod n)) ^ ((n - 1) / q)
        = ((a ^ ((n - 1) / q) % n : Nat) : ZMod n) := by
      rw [ZMod.natCast_mod, Nat.cast_pow]
    rw [key]
    intro hcon
    apply hdiv q hmem
    have h1 : ((a ^ ((n - 1) / q) % n : Nat) : ZMod n) = ((1 % n : Nat) : ZMod n) := by
      rw [hcon, ZMod.natCast_mod, Nat.cast_one]
    have h2 := (ZMod.natCast_eq_natCast_iff _ _ _).mp h1
    rwa [Nat.ModEq, Nat.mod_mod_of_dvd _ (dvd_refl n),
      Nat.mod_mod_of_dvd _ (dvd_refl n)] at h2

set_option maxRecDepth 100000 in
/-- Pratt-certificate node: `101` is prime (base 2). -/
theorem prime_c0 : Nat.Prime 101 := by
  refine pratt_step 101 2 [2, 5] ?_ ?_ ?_
  · have hfact : 101 - 1 = 2 ^ 2 * (5 ^ 2) := by decide
    intro q hq hdvd
    rw [hfact] at hdvd
    rcases (Nat.Prime.dvd_mul hq).mp hdvd with h | hdvd
    · have hd := Nat.Prime.dvd_of_dvd_pow hq h
      have heq := (Nat.prime_dvd_prime_iff_eq hq (by norm_num)).mp hd
      subst heq
      decide
    · have hd := Nat.Prime.dvd_of_dvd_pow hq hdvd
      have heq := (Nat.prime_dvd_prime_iff_eq hq (by norm_num)).mp hd
      subst heq
      decide
  · rw [show (101 - 1 : Nat) = 100 from by decide,
      ← powMod_eq 101 2 100 256 (by decide)]
    decide
  · intro q hq
    simp only [List.mem_cons, List.not_mem_nil, or_false] at hq
    rcases hq with rfl | rfl
    · rw [show (101 - 1) / 2 = 50 from by decide,
        ← powMod_eq 101 2 50 256 (by decide)]
      decide
    · rw [show (101 - 1) / 5 = 20 from by decide,
        ← powMod_eq 101 2 20 256 (by decide)]
      decide

set_option maxRecDepth 100000 in
/-- Pratt-certificate node: `103` is prime (base 5). -/
theorem prime_c1 : Nat.Prime 103 := by
  refine pratt_step 103 5 [2, 3, 17] ?_ ?_ ?_
  · have hfact : 103 - 1 = 2 ^ 1 * (3 ^ 1 * (17 ^ 1)) := by decide
    intro q hq hdvd
    rw [hfact] at hdvd
    rcases (Nat.Prime.dvd_mul hq).mp hdvd with h | hdvd
    · have hd := Nat.Prime.dvd_of_dvd_pow hq h
      have heq := (Nat.prime_dvd_prime_iff_eq hq (by norm_num)).mp hd
      subst heq
      decide
    rcases (Nat.Prime.dvd_mul hq).mp hdvd with h | hdvd
    · have hd := Nat.Prime.dvd_of_dvd_pow hq h
      have heq := (Nat.prime_dvd_prime_iff_eq hq (by norm_num)).mp hd
      subst heq
      decide
    · have hd := Nat.Prime.dvd_of_dvd_pow hq hdvd
      have heq := (Nat.prime_dvd_prime_iff_eq hq (by norm_num)).mp hd
      subst heq
      decide
  · rw [show (103 - 1 : Nat) = 102 from by decide,
      ← powMod_eq 103 5 102 256 (by decide)]
    decide
  · intro q hq
    simp only [List.mem_cons, List.not_mem_nil, or_false] at hq
    rcases hq with rfl | rfl | rfl
    · rw [show (103 - 1) / 2 = 51 from by decide,
        ← powMod_eq 103 5 51 256 (by decide)]
      decide
    · rw [show (103 - 1) / 3 = 34 from by decide,
        ← powMod_eq 103 5 34 256 (by decide)]
      decide
    · rw [show (103 - 1) / 17 = 6 from by decide,
        ← powMod_eq 103 5 6 256 (by decide)]
      decide

set_option maxRecDepth 100000 in
/-- Pratt-certificate node: `131` is prime (base 2). -/
theorem prime_c2 : Nat.Prime 131 := by
  refine pratt_step 131 2 [2, 5, 13] ?_ ?_ ?_
  · have hfact : 131 - 1 = 2 ^ 1 * (5 ^ 1 * (13 ^ 1)) := by decide
    intro q hq hdvd
    rw [hfact] at hdvd
    rcases (Nat.Prime.dvd_mul hq).mp hdvd with h | hdvd
    · have hd := Nat.Prime.dvd_of_dvd_pow hq h
      have heq := (Nat.prime_dvd_prime_iff_eq hq (by norm_num)).mp hd
      subst heq
      decide
    rcases (Nat.Prime.dvd_mul hq).mp hdvd with h | hdvd
    · have hd := Nat.Prime.dvd_of_dvd_pow hq h
      have heq := (Nat.prime_dvd_prime_iff_eq hq (by norm_num)).mp hd
      subst heq
      decide
    · have hd := Nat.Prime.dvd_of_dvd_pow hq hdvd
      have heq := (Nat.prime_dvd_prime_iff_eq hq (by norm_num)).mp hd
      subst heq
      decide
  · rw [show (131 - 1 : Nat) = 130 from by decide,
      ← powMod_eq 131 2 130 256 (by decide)]
    decide
  · intro q hq
    simp only [List.mem_cons, List.not_mem_nil, or_false] at hq
    rcases hq with rfl | rfl | rfl
    · rw [show (131 - 1) / 2 = 65 from by decide,
        ← powMod_eq 131 2 65 256 (by decide)]
      decide
    · rw [show (131 - 1) / 5 = 26 from by decide,
        ← powMod_eq 131 2 26 256 (by decide)]
      decide
    · rw [show (131 - 1) / 13 = 10 from by decide,
        ← powMod_eq 131 2 10 256 (by decide)]
      decide

set_option maxRecDepth 100000 in
/-- Pratt-certificate node: `239` is prime (base 7). -/
theorem prime_c3 : Nat.Prime 239 := by
  refine pratt_step 239 7 [2, 7, 17] ?_ ?_ ?_
  · have hfact : 239 - 1 = 2 ^ 1 * (7 ^ 1 * (17 ^ 1)) := by decide
    intro q hq hdvd
    rw [hfact] at hdvd
    rcases (Nat.Prime.dvd_mul hq).mp hdvd with h | hdvd
    · have hd := Nat.Prime.dvd_of_dvd_pow hq h
      have heq := (Nat.prime_dvd_prime_iff_eq hq (by norm_num)).mp hd
      subst heq
      decide
    rcases (Nat.Prime.dvd_mul hq).mp hdvd with h | hdvd
    · have hd := Nat.Prime.dvd_of_dvd_pow hq h
      have heq := (Nat.prime_dvd_prime_iff_eq hq (by norm_num)).mp hd
      subst heq
      decide
    · have hd := Nat.Prime.dvd_of_dvd_pow hq hdvd
      have heq := (Nat.prime_dvd_prime_iff_eq hq (by norm_num)).mp hd
      subst heq
      decide
  · rw [show (239 - 1 : Nat) = 238 from by decide,
      ← powMod_eq 239 7 238 256 (by decide)]
    decide
  · intro q hq
    simp only [List.mem_cons, List.not_mem_nil, or_false] at hq
    rcases hq with rfl | rfl | rfl
    · rw [show (239 - 1) / 2 = 119 from by decide,
        ← powMod_eq 239 7 119 256 (by decide)]
      decide
    · rw [show (239 - 1) / 7 = 34 from by decide,
        ← powMod_eq 239 7 34 256 (by decide)]
      decide
    · rw [show (239 - 1) / 17 = 14 from by decide,
        ← powMod_eq 239 7 14 256 (by decide)]
      decide

set_option maxRecDepth 100000 in
/-- Pratt-certificate node: `271` is prime (base 6). -/
theorem prime_c4 : Nat.Prime 271 := by
  refine pratt_step 271 6 [2, 3, 5] ?_ ?_ ?_
  · have hfact : 271 - 1 = 2 ^ 1 * (3 ^ 3 * (5 ^ 1)) := by decide
    intro q hq hdvd
    rw [hfact] at hdvd
    rcases (Nat.Prime.dvd_mul hq).mp hdvd with h | hdvd
    · have hd := Nat.Prime.dvd_of_dvd_pow hq h
      have heq := (Nat.prime_dvd_prime_iff_eq hq (by norm_num)).mp hd
      subst heq
      decide
    rcases (Nat.Prime.dvd_mul hq).mp hdvd with h | hdvd
    · have hd := Nat.Prime.dvd_of_dvd_pow hq h
      have heq := (Nat.prime_dvd_prime_iff_eq hq (by norm_num)).mp hd
      subst heq
      decide
    · have hd := Nat.Prime.dvd_of_dvd_pow hq hdvd
      have heq := (Nat.prime_dvd_prime_iff_eq hq (by norm_num)).mp hd
      subst heq
      decide
  · rw [show (271 - 1 : Nat) = 270 from by decide,
      ← powMod_eq 271 6 270 256 (by decide)]
    decide
  · intro q hq
    simp only [List.mem_cons, List.not_mem_nil, or_false] at hq
    rcases hq with rfl | rfl | rfl
    · rw [show (271 - 1) / 2 = 135 from by decide,
        ← powMod_eq 271 6 135 256 (by decide)]
      decide
    · rw [show (271 - 1) / 3 = 90 from by decide,
        ← powMod_eq 271 6 90 256 (by decide)]
      decide
    · rw [show (271 - 1) / 5 = 54 from by decide,
        ← powMod_eq 271 6 54 256 (by decide)]
      decide

set_option maxRecDepth 100000 in
/-- Pratt-certificate node: `419` is prime (base 2). -/
theorem prime_c5 : Nat.Prime 419 := by
  refine pratt_step 419 2 [2, 11, 19] ?_ ?_ ?_
  · have hfact : 419 - 1 = 2 ^ 1 * (11 ^ 1 * (19 ^ 1)) := by decide
    intro q hq hdvd
    rw [hfact] at hdvd
    rcases (Nat.Prime.dvd_mul hq).mp hdvd with h | hdvd
    · have hd := Nat.Prime.dvd_of_dvd_pow hq h
      have heq := (Nat.prime_dvd_prime_iff_eq hq (by norm_num)).mp hd
      subst heq
      decide
    rcases (Nat.Prime.dvd_mul hq).mp hdvd with h | hdvd
    · have hd := Nat.Prime.dvd_of_dvd_pow hq h
      have heq := (Nat.prime_dvd_prime_iff_eq hq (by norm_num)).mp hd
      subst heq
      decide
    · have hd := Nat.Prime.dvd_of_dvd_pow hq hdvd
      have heq := (Nat.prime_dvd_prime_iff_eq hq (by norm_num)).mp hd
      subst heq
      decide
  · rw [show (419 - 1 : Nat) = 418 from by decide,
      ← powMod_eq 419 2 418 256 (by decide)]
    decide
  · intro q hq
    simp only [List.mem_cons, List.not_mem_nil, or_false] at hq
    rcases hq with rfl | rfl | rfl
    · rw [show (419 - 1) / 2 = 209 from by decide,
        ← powMod_eq 419 2 209 256 (by decide)]
      decide
    · rw [show (419 - 1) / 11 = 38 from by decide,
        ← powMod_eq 419 2 38 256 (by decide)]
      decide
    · rw [show (419 - 1) / 19 = 22 from by decide,
        ← powMod_eq 419 2 22 256 (by decide)]
      decide

set_option maxRecDepth 100000 in
/-- Pratt-certificate node: `443` is prime (base 2). -/
theorem prime_c6 : Nat.Prime 443 := by
  refine pratt_step 443 2 [2, 13, 17] ?_ ?_ ?_
  · have hfact : 443 - 1 = 2 ^ 1 * (13 ^ 1 * (17 ^ 1)) := by decide
    intro q hq hdvd
    rw [hfact] at hdvd
    rcases (Nat.Prime.dvd_mul hq).mp hdvd with h | hdvd
    · have hd := Nat.Prime.dvd_of_dvd_pow hq h
      have heq := (Nat.prime_dvd_prime_iff_eq hq (by norm_num)).mp hd
      subst heq
      decide
    rcases (Nat.Prime.dvd_mul hq).mp hdvd with h | hdvd
    · have hd := Nat.Prime.dvd_of_dvd_pow hq h
      have heq := (Nat.prime_dvd_prime_iff_eq hq (by norm_num)).mp hd
      subst heq
      decide
    · have hd := Nat.Prime.dvd_of_dvd_pow hq hdvd
      have heq := (Nat.prime_dvd_prime_iff_eq hq (by norm_num)).mp hd
      subst heq
      decide
  · rw [show (443 - 1 : Nat) = 442 from by decide,
      ← powMod_eq 443 2 442 256 (by decide)]
    decide
  · intro q hq
    simp only [List.mem_cons, List.not_mem_nil, or_false] at hq
    rcases hq with rfl | rfl | rfl
    · rw [show (443 - 1) / 2 = 221 from by decide,
        ← powMod_eq 443 2 221 256 (by decide)]
      decide
    · rw [show (443 - 1) / 13 = 34 from by decide,
        ← powMod_eq 443 2 34 256 (by decide)]
      decide
    · rw [show (443 - 1) / 17 = 26 from by decide,
        ← powMod_eq 443 2 26 256 (by decide)]
      decide

set_option maxRecDepth 100000 in
/-- Pratt-certificate node: `887` is prime (base 5). -/
theorem prime_c7 : Nat.Prime 887 := by
  refine pratt_step 887 5 [2, 443] ?_ ?_ ?_
  · have hfact : 887 - 1 = 2 ^ 1 * (443 ^ 1) := by decide
    intro q hq hdvd
    rw [hfact] at hdvd
    rcases (Nat.Prime.dvd_mul hq).mp hdvd with h | hdvd
    · have hd := Nat.Prime.dvd_of_dvd_pow hq h
      have heq := (Nat.prime_dvd_prime_iff_eq hq (by norm_num)).mp hd
      subst heq
      decide
    · have hd := Nat.Prime.dvd_of_dvd_pow hq hdvd
      have heq := (Nat.prime_dvd_prime_iff_eq hq prime_c6).mp hd
      subst heq
      decide
  · rw [show (887 - 1 : Nat) = 886 from by decide,
      ← powMod_eq 887 5 886 256 (by decide)]
    decide
  · intro q hq
    simp only [List.mem_cons, List.not_mem_nil, or_false] at hq
    rcases hq with rfl | rfl
    · rw [show (887 - 1) / 2 = 443 from by decide,
        ← powMod_eq 887 5 443 256 (by decide)]
      decide
    · rw [show (887 - 1) / 443 = 2 from by decide,
        ← powMod_eq 887 5 2 256 (by decide)]
      decide

set_option maxRecDepth 100000 in
/-- Pratt-certificate node: `971` is prime (base 6). -/
theorem prime_c8 : Nat.Prime 971 := by
  refine pratt_step 971 6 [2, 5, 97] ?_ ?_ ?_
  · have hfact : 971 - 1 = 2 ^ 1 * (5 ^ 1 * (97 ^ 1)) := by decide
    intro q hq hdvd
    rw [hfact] at hdvd
    rcases (Nat.Prime.dvd_mul hq).mp hdvd with h | hdvd
    · have hd := Nat.Prime.dvd_of_dvd_pow hq h
      have heq := (Nat.prime_dvd_prime_iff_eq hq (by norm_num)).mp hd
      subst heq
      decide
    rcases (Nat.Prime.dvd_mul hq).mp hdvd with h | hdvd
    · have hd := Nat.Prime.dvd_of_dvd_pow hq h
      have heq := (Nat.prime_dvd_prime_iff_eq hq (by norm_num)).mp hd
      subst heq
      decide
    · have hd := Nat.Prime.dvd_of_dvd_pow hq hdvd
      have heq := (Nat.prime_dvd_prime_iff_eq hq (by norm_num)).mp hd
      subst heq
      decide
  · rw [show (971 - 1 : Nat) = 970 from by decide,
      ← powMod_eq 971 6 970 256 (by decide)]
    decide
  · intro q hq
    simp only [List.mem_cons, List.not_mem_nil, or_false] at hq
    rcases hq with rfl | rfl | rfl
    · rw [show (971 - 1) / 2 = 485 from by decide,
        ← powMod_eq 971 6 485 256 (by decide)]
      decide
    · rw [show (971 - 1) / 5 = 194 from by decide,
        ← powMod_eq 971 6 194 256 (by decide)]
      decide
    · rw [show (971 - 1) / 97 = 10 from by decide,
        ← powMod_eq 971 6 10 256 (by decide)]
      decide

set_option maxRecDepth 100000 in
/-- Pratt-certificate node: `1373` is prime (base 2). -/
theorem prime_c9 : Nat.Prime 1373 := by
  refine pratt_step 1373 2 [2, 7] ?_ ?_ ?_
  · have hfact : 1373 - 1 = 2 ^ 2 * (7 ^ 3) := by decide
    intro q hq hdvd
    rw [hfact] at hdvd
    rcases (Nat.Prime.dvd_mul hq).mp hdvd with h | hdvd
    · have hd := Nat.Prime.dvd_of_dvd_pow hq h
      have heq := (Nat.prime_dvd_prime_iff_eq hq (by norm_num)).mp hd
      subst heq
      decide
    · have hd := Nat.Prime.dvd_of_dvd_pow hq hdvd
      have heq := (Nat.prime_dvd_prime_iff_eq hq (by norm_num)).mp hd
      subst heq
      decide
  · rw [show (1373 - 1 : Nat) = 1372 from by decide,
      ← powMod_eq 1373 2 1372 256 (by decide)]
    decide
  · intro q hq
    simp only [List.mem_cons, List.not_mem_nil, or_false] at hq
    rcases hq with rfl | rfl
    · rw [show (1373 - 1) / 2 = 686 from by decide,
        ← powMod_eq 1373 2 686 256 (by decide)]
      decide
    · rw [show (1373 - 1) / 7 = 196 from by decide,
        ← powMod_eq 1373 2 196 256 (by decide)]
      decide

set_option maxRecDepth 100000 in
/-- Pratt-certificate node: `1627` is prime (base 3). -/
theorem prime_c10 : Nat.Prime 1627 := by
  refine pratt_step 1627 3 [2, 3, 271] ?_ ?_ ?_
  · have hfact : 1627 - 1 = 2 ^ 1 * (3 ^ 1 * (271 ^ 1)) := by decide
    intro q hq hdvd
    rw [hfact] at hdvd
    rcases (Nat.Prime.dvd_mul hq).mp hdvd with h | hdvd
    · have hd := Nat.Prime.dvd_of_dvd_pow hq h
      have heq := (Nat.prime_dvd_prime_iff_eq hq (by norm_num)).mp hd
      subst heq
      decide
    rcases (Nat.Prime.dvd_mul hq).mp hdvd with h | hdvd
    · have hd := Nat.Prime.dvd_of_dvd_pow hq h
      have heq := (Nat.prime_dvd_prime_iff_eq hq (by norm_num)).mp hd
      subst heq
      decide
    · have hd := Nat.Prime.dvd_of_dvd_pow hq hdvd
      have heq := (Nat.prime_dvd_prime_iff_eq hq prime_c4).mp hd
      subst heq
      decide
  · rw [show (1627 - 1 : Nat) = 1626 from by decide,
      ← powMod_eq 1627 3 1626 256 (by decide)]
    decide
  · intro q hq
    simp only [List.mem_cons, List.not_mem_nil, or_false] at hq
    rcases hq with rfl | rfl | rfl
    · rw [show (1627 - 1) / 2 = 813 from by decide,
        ← powMod_eq 1627 3 813 256 (by decide)]
      decide
    · rw [show (1627 - 1) / 3 = 542 from by decide,
        ← powMod_eq 1627 3 542 256 (by decide)]
      decide
    · rw [show (1627 - 1) / 271 = 6 from by decide,
        ← powMod_eq 1627 3 6 256 (by decide)]
      decide

set_option maxRecDepth 100000 in
/-- Pratt-certificate node: `2621` is prime (base 2). -/
theorem prime_c11 : Nat.Prime 2621 := by
  refine pratt_step 2621 2 [2, 5, 131] ?_ ?_ ?_
  · have hfact : 2621 - 1 = 2 ^ 2 * (5 ^ 1 * (131 ^ 1)) := by decide
    intro q hq hdvd
    rw [hfact] at hdvd
    rcases (Nat.Prime.dvd_mul hq).mp hdvd with h | hdvd
    · have hd := Nat.Prime.dvd_of_dvd_pow hq h
      have heq := (Nat.prime_dvd_prime_iff_eq hq (by norm_num)).mp hd
      subst heq
      decide
    rcases (Nat.Prime.dvd_mul hq).mp hdvd with h | hdvd
    · have hd := Nat.Prime.dvd_of_dvd_pow hq h
      have heq := (Nat.prime_dvd_prime_iff_eq hq (by norm_num)).mp hd
      subst heq
      decide
    · have hd := Nat.Prime.dvd_of_dvd_pow hq hdvd
      have heq := (Nat.prime_dvd_prime_iff_eq hq prime_c2).mp hd
      subst heq
      decide
  · rw [show (2621 - 1 : Nat) = 2620 from by decide,
      ← powMod_eq 2621 2 2620 256 (by decide)]
    decide
  · intro q hq
    simp only [List.mem_cons, List.not_mem_nil, or_false] at hq
    rcases hq with rfl | rfl | rfl
    · rw [show (2621 - 1) / 2 = 1310 from by decide,
        ← powMod_eq 2621 2 1310 256 (by decide)]
      decide
    · rw [show (2621 - 1) / 5 = 524 from by decide,
        ← powMod_eq 2621 2 524 256 (by decide)]
      decide
    · rw [show (2621 - 1) / 131 = 20 from by decide,
        ← powMod_eq 2621 2 20 256 (by decide)]
      decide

set_option maxRecDepth 100000 in
/-- Pratt-certificate node: `2657` is prime (base 3). -/
theorem prime_c12 : Nat.Prime 2657 := by
  refine pratt_step 2657 3 [2, 83] ?_ ?_ ?_
  · have hfact : 2657 - 1 = 2 ^ 5 * (83 ^ 1) := by decide
    intro q hq hdvd
    rw [hfact] at hdvd
    rcases (Nat.Prime.dvd_mul hq).mp hdvd with h | hdvd
    · have hd := Nat.Prime.dvd_of_dvd_pow hq h
      have heq := (Nat.prime_dvd_prime_iff_eq hq (by norm_num)).mp hd
      subst heq
      decide
    · have hd := Nat.Prime.dvd_of_dvd_pow hq hdvd
      have heq := (Nat.prime_dvd_prime_iff_eq hq (by norm_num)).mp hd
      subst heq
      decide
  · rw [show (2657 - 1 : Nat) = 2656 from by decide,
      ← powMod_eq 2657 3 2656 256 (by decide)]
    decide
  · intro q hq
    simp only [List.mem_cons, List.not_mem_nil, or_false] at hq
    rcases hq with rfl | rfl
    · rw [show (2657 - 1) / 2 = 1328 from by decide,
        ← powMod_eq 2657 3 1328 256 (by decide)]
      decide
    · rw [show (2657 - 1) / 83 = 32 from by decide,
        ← powMod_eq 2657 3 32 256 (by decide)]
      decide

set_option maxRecDepth 100000 in
/-- Pratt-certificate node: `4423` is prime (base 3). -/
theorem prime_c13 : Nat.Prime 4423 := by
  refine pratt_step 4423 3 [2, 3, 11, 67] ?_ ?_ ?_
  · have hfact : 4423 - 1 = 2 ^ 1 * (3 ^ 1 * (11 ^ 1 * (67 ^ 1))) := by decide
    intro q hq hdvd
    rw [hfact] at hdvd
    rcases (Nat.Prime.dvd_mul hq).mp hdvd with h | hdvd
    · have hd := Nat.Prime.dvd_of_dvd_pow hq h
      have heq := (Nat.prime_dvd_prime_iff_eq hq (by norm_num)).mp hd
      subst heq
      decide
    rcases (Nat.Prime.dvd_mul hq).mp hdvd with h | hdvd
    · have hd := Nat.Prime.dvd_of_dvd_pow hq h
      have heq := (Nat.prime_dvd_prime_iff_eq hq (by norm_num)).mp hd
      subst heq
      decide
    rcases (Nat.Prime.dvd_mul hq).mp hdvd with h | hdvd
    · have hd := Nat.Prime.dvd_of_dvd_pow hq h
      have heq := (Nat.prime_dvd_prime_iff_eq hq (by norm_num)).mp hd
      subst heq
      decide
    · have hd := Nat.Prime.dvd_of_dvd_pow hq hdvd
      have heq := (Nat.prime_dvd_prime_iff_eq hq (by norm_num)).mp hd
      subst heq
      decide
  · rw [show (4423 - 1 : Nat) = 4422 from by decide,
      ← powMod_eq 4423 3 4422 256 (by decide)]
    decide
  · intro q hq
    simp only [List.mem_cons, List.not_mem_nil, or_false] at hq
    rcases hq with rfl | rfl | rfl | rfl
    · rw [show (4423 - 1) / 2 = 2211 from by decide,
        ← powMod_eq 4423 3 2211 256 (by decide)]
      decide
    · rw [show (4423 - 1) / 3 = 1474 from by decide,
        ← powMod_eq 4423 3 1474 256 (by decide)]
      decide
    · rw [show (4423 - 1) / 11 = 402 from by decide,
        ← powMod_eq 4423 3 402 256 (by decide)]
      decide
    · rw [show (4423 - 1) / 67 = 66 from by decide,
        ← powMod_eq 4423 3 66 256 (by decide)]
      decide

set_option maxRecDepth 100000 in
/-- Pratt-certificate node: `5323` is prime (base 5). -/
theorem prime_c14 : Nat.Prime 5323 := by
  refine pratt_step 5323 5 [2, 3, 887] ?_ ?_ ?_
  · have hfact : 5323 - 1 = 2 ^ 1 * (3 ^ 1 * (887 ^ 1)) := by decide
    intro q hq hdvd
    rw [hfact] at hdvd
    rcases (Nat.Prime.dvd_mul hq).mp hdvd with h | hdvd
    · have hd := Nat.Prime.dvd_of_dvd_pow hq h
      have heq := (Nat.prime_dvd_prime_iff_eq hq (by norm_num)).mp hd
      subst heq
      decide
    rcases (Nat.Prime.dvd_mul hq).mp hdvd with h | hdvd
    · have hd := Nat.Prime.dvd_of_dvd_pow hq h
      have heq := (Nat.prime_dvd_prime_iff_eq hq (by norm_num)).mp hd
      subst heq
      decide
    · have hd := Nat.Prime.dvd_of_dvd_pow hq hdvd
      have heq := (Nat.prime_dvd_prime_iff_eq hq prime_c7).mp hd
      subst heq
      decide
  · rw [show (5323 - 1 : Nat) = 5322 from by decide,
      ← powMod_eq 5323 5 5322 256 (by decide)]
    decide
  · intro q hq
    simp only [List.mem_cons, List.not_mem_nil, or_false] at hq
    rcases hq with rfl | rfl | rfl
    · rw [show (5323 - 1) / 2 = 2661 from by decide,
        ← powMod_eq 5323 5 2661 256 (by decide)]
      decide
    · rw [show (5323 - 1) / 3 = 1774 from by decide,
        ← powMod_eq 5323 5 1774 256 (by decide)]
      decide
    · rw [show (5323 - 1) / 887 = 6 from by decide,
        ← powMod_eq 5323 5 6 256 (by decide)]
      decide

set_option maxRecDepth 100000 in
/-- Pratt-certificate node: `7723` is prime (base 3). -/
theorem prime_c15 : Nat.Prime 7723 := by
  refine pratt_step 7723 3 [2, 3, 11, 13] ?_ ?_ ?_
  · have hfact : 7723 - 1 = 2 ^ 1 * (3 ^ 3 * (11 ^ 1 * (13 ^ 1))) := by decide
    intro q hq hdvd
    rw [hfact] at hdvd
    rcases (Nat.Prime.dvd_mul hq).mp hdvd with h | hdvd
    · have hd := Nat.Prime.dvd_of_dvd_pow hq h
      have heq := (Nat.prime_dvd_prime_iff_eq hq (by norm_num)).mp hd
      subst heq
      decide
    rcases (Nat.Prime.dvd_mul hq).mp hdvd with h | hdvd
    · have hd := Nat.Prime.dvd_of_dvd_pow hq h
      have heq := (Nat.prime_dvd_prime_iff_eq hq (by norm_num)).mp hd
      subst heq
      decide
    rcases (Nat.Prime.dvd_mul hq).mp hdvd with h | hdvd
    · have hd := Nat.Prime.dvd_of_dvd_pow hq h
      have heq := (Nat.prime_dvd_prime_iff_eq hq (by norm_num)).mp hd
      subst heq
      decide
    · have hd := Nat.Prime.dvd_of_dvd_pow hq hdvd
      have heq := (Nat.prime_dvd_prime_iff_eq hq (by norm_num)).mp hd
      subst heq
      decide
  · rw [show (7723 - 1 : Nat) = 7722 from by decide,
      ← powMod_eq 7723 3 7722 256 (by decide)]
    decide
  · intro q hq
    simp only [List.mem_cons, List.not_mem_nil, or_false] at hq
    rcases hq with rfl | rfl | rfl | rfl
    · rw [show (7723 - 1) / 2 = 3861 from by decide,
        ← powMod_eq 7723 3 3861 256 (by decide)]
      decide
    · rw [show (7723 - 1) / 3 = 2574 from by decide,
        ← powMod_eq 7723 3 2574 256 (by decide)]
      decide
    · rw [show (7723 - 1) / 11 = 702 from by decide,
        ← powMod_eq 7723 3 702 256 (by decide)]
      decide
    · rw [show (7723 - 1) / 13 = 594 from by decide,
        ← powMod_eq 7723 3 594 256 (by decide)]
      decide

set_option maxRecDepth 100000 in
/-- Pratt-certificate node: `13441` is prime (base 11). -/
theorem prime_c16 : Nat.Prime 13441 := by
  refine pratt_step 13441 11 [2, 3, 5, 7] ?_ ?_ ?_
  · have hfact : 13441 - 1 = 2 ^ 7 * (3 ^ 1 * (5 ^ 1 * (7 ^ 1))) := by decide
    intro q hq hdvd
    rw [hfact] at hdvd
    rcases (Nat.Prime.dvd_mul hq).mp hdvd with h | hdvd
    · have hd := Nat.Prime.dvd_of_dvd_pow hq h
      have heq := (Nat.prime_dvd_prime_iff_eq hq (by norm_num)).mp hd
      subst heq
      decide
    rcases (Nat.Prime.dvd_mul hq).mp hdvd with h | hdvd
    · have hd := Nat.Prime.dvd_of_dvd_pow hq h
      have heq := (Nat.prime_dvd_prime_iff_eq hq (by norm_num)).mp hd
      subst heq
      decide
    rcases (Nat.Prime.dvd_mul hq).mp hdvd with h | hdvd
    · have hd := Nat.Prime.dvd_of_dvd_pow hq h
      have heq := (Nat.prime_dvd_prime_iff_eq hq (by norm_num)).mp hd
      subst heq
      decide
    · have hd := Nat.Prime.dvd_of_dvd_pow hq hdvd
      have heq := (Nat.prime_dvd_prime_iff_eq hq (by norm_num)).mp hd
      subst heq
      decide
  · rw [show (13441 - 1 : Nat) = 13440 from by decide,
      ← powMod_eq 13441 11 13440 256 (by decide)]
    decide
  · intro q hq
    simp only [List.mem_cons, List.not_mem_nil, or_false] at hq
    rcases hq with rfl | rfl | rfl | rfl
    · rw [show (13441 - 1) / 2 = 6720 from by decide,
        ← powMod_eq 13441 11 6720 256 (by decide)]
      decide
    · rw [show (13441 - 1) / 3 = 4480 from by decide,
        ← powMod_eq 13441 11 4480 256 (by decide)]
      decide
    · rw [show (13441 - 1) / 5 = 2688 from by decide,
        ← powMod_eq 13441 11 2688 256 (by decide)]
      decide
    · rw [show (13441 - 1) / 7 = 1920 from by decide,
        ← powMod_eq 13441 11 1920 256 (by decide)]
      decide

set_option maxRecDepth 100000 in
/-- Pratt-certificate node: `20113` is prime (base 10). -/
theorem prime_c17 : Nat.Prime 20113 := by
  refine pratt_step 20113 10 [2, 3, 419] ?_ ?_ ?_
  · have hfact : 20113 - 1 = 2 ^ 4 * (3 ^ 1 * (419 ^ 1)) := by decide
    intro q hq hdvd
    rw [hfact] at hdvd
    rcases (Nat.Prime.dvd_mul hq).mp hdvd with h | hdvd
    · have hd := Nat.Prime.dvd_of_dvd_pow hq h
      have heq := (Nat.prime_dvd_prime_iff_eq hq (by norm_num)).mp hd
      subst heq
      decide
    rcases (Nat.Prime.dvd_mul hq).mp hdvd with h | hdvd
    · have hd := Nat.Prime.dvd_of_dvd_pow hq h
      have heq := (Nat.prime_dvd_prime_iff_eq hq (by norm_num)).mp hd
      subst heq
      decide
    · have hd := Nat.Prime.dvd_of_dvd_pow hq hdvd
      have heq := (Nat.prime_dvd_prime_iff_eq hq prime_c5).mp hd
      subst heq
      decide
  · rw [show (20113 - 1 : Nat) = 20112 from by decide,
      ← powMod_eq 20113 10 20112 256 (by decide)]
    decide
  · intro q hq
    simp only [List.mem_cons, List.not_mem_nil, or_false] at hq
    rcases hq with rfl | rfl | rfl
    · rw [show (20113 - 1) / 2 = 10056 from by decide,
        ← powMod_eq 20113 10 10056 256 (by decide)]
      decide
    · rw [show (20113 - 1) / 3 = 6704 from by decide,
        ← powMod_eq 20113 10 6704 256 (by decide)]
      decide
    · rw [show (20113 - 1) / 419 = 48 from by decide,
        ← powMod_eq 20113 10 48 256 (by decide)]
      decide

set_option maxRecDepth 100000 in
/-- Pratt-certificate node: `24809` is prime (base 6). -/
theorem prime_c18 : Nat.Prime 24809 := by
  refine pratt_step 24809 6 [2, 7, 443] ?_ ?_ ?_
  · have hfact : 24809 - 1 = 2 ^ 3 * (7 ^ 1 * (443 ^ 1)) := by decide
    intro q hq hdvd
    rw [hfact] at hdvd
    rcases (Nat.Prime.dvd_mul hq).mp hdvd with h | hdvd
    · have hd := Nat.Prime.dvd_of_dvd_pow hq h
      have heq := (Nat.prime_dvd_prime_iff_eq hq (by norm_num)).mp hd
      subst heq
      decide
    rcases (Nat.Prime.dvd_mul hq).mp hdvd with h | hdvd
    · have hd := Nat.Prime.dvd_of_dvd_pow hq h
      have heq := (Nat.prime_dvd_prime_iff_eq hq (by norm_num)).mp hd
      subst heq
      decide
    · have hd := Nat.Prime.dvd_of_dvd_pow hq hdvd
      have heq := (Nat.prime_dvd_prime_iff_eq hq prime_c6).mp hd
      subst heq
      decide
  · rw [show (24809 - 1 : Nat) = 24808 from by decide,
      ← powMod_eq 24809 6 24808 256 (by decide)]
    decide
  · intro q hq
    simp only [List.mem_cons, List.not_mem_nil, or_false] at hq
    rcases hq with rfl | rfl | rfl
    · rw [show (24809 - 1) / 2 = 12404 from by decide,
        ← powMod_eq 24809 6 12404 256 (by decide)]
      decide
    · rw [show (24809 - 1) / 7 = 3544 from by decide,
        ← powMod_eq 24809 6 3544 256 (by decide)]
      decide
    · rw [show (24809 - 1) / 443 = 56 from by decide,
        ← powMod_eq 24809 6 56 256 (by decide)]
      decide

set_option maxRecDepth 100000 in
/-- Pratt-certificate node: `41201` is prime (base 3). -/
theorem prime_c19 : Nat.Prime 41201 := by
  refine pratt_step 41201 3 [2, 5, 103] ?_ ?_ ?_
  · have hfact : 41201 - 1 = 2 ^ 4 * (5 ^ 2 * (103 ^ 1)) := by decide
    intro q hq hdvd
    rw [hfact] at hdvd
    rcases (Nat.Prime.dvd_mul hq).mp hdvd with h | hdvd
    · have hd := Nat.Prime.dvd_of_dvd_pow hq h
      have heq := (Nat.prime_dvd_prime_iff_eq hq (by norm_num)).mp hd
      subst heq
      decide
    rcases (Nat.Prime.dvd_mul hq).mp hdvd with h | hdvd
    · have hd := Nat.Prime.dvd_of_dvd_pow hq h
      have heq := (Nat.prime_dvd_prime_iff_eq hq (by norm_num)).mp hd
      subst heq
      decide
    · have hd := Nat.Prime.dvd_of_dvd_pow hq hdvd
      have heq := (Nat.prime_dvd_prime_iff_eq hq prime_c1).mp hd
      subst heq
      decide
  · rw [show (41201 - 1 : Nat) = 41200 from by decide,
      ← powMod_eq 41201 3 41200 256 (by decide)]
    decide
  · intro q hq
    simp only [List.mem_cons, List.not_mem_nil, or_false] at hq
    rcases hq with rfl | rfl | rfl
    · rw [show (41201 - 1) / 2 = 20600 from by decide,
        ← powMod_eq 41201 3 20600 256 (by decide)]
      decide
    · rw [show (41201 - 1) / 5 = 8240 from by decide,
        ← powMod_eq 41201 3 8240 256 (by decide)]
      decide
    · rw [show (41201 - 1) / 103 = 400 from by decide,
        ← powMod_eq 41201 3 400 256 (by decide)]
      decide

set_option maxRecDepth 100000 in
/-- Pratt-certificate node: `96557` is prime (base 2). -/
theorem prime_c20 : Nat.Prime 96557 := by
  refine pratt_step 96557 2 [2, 101, 239] ?_ ?_ ?_
  · have hfact : 96557 - 1 = 2 ^ 2 * (101 ^ 1 * (239 ^ 1)) := by decide
    intro q hq hdvd
    rw [hfact] at hdvd
    rcases (Nat.Prime.dvd_mul hq).mp hdvd with h | hdvd
    · have hd := Nat.Prime.dvd_of_dvd_pow hq h
      have heq := (Nat.prime_dvd_prime_iff_eq hq (by norm_num)).mp hd
      subst heq
      decide
    rcases (Nat.Prime.dvd_mul hq).mp hdvd with h | hdvd
    · have hd := Nat.Prime.dvd_of_dvd_pow hq h
      have heq := (Nat.prime_dvd_prime_iff_eq hq prime_c0).mp hd
      subst heq
      decide
    · have hd := Nat.Prime.dvd_of_dvd_pow hq hdvd
      have heq := (Nat.prime_dvd_prime_iff_eq hq prime_c3).mp hd
      subst heq
      decide
  · rw [show (96557 - 1 : Nat) = 96556 from by decide,
      ← powMod_eq 96557 2 96556 256 (by decide)]
    decide
  · intro q hq
    simp only [List.mem_cons, List.not_mem_nil, or_false] at hq
    rcases hq with rfl | rfl | rfl
    · rw [show (96557 - 1) / 2 = 48278 from by decide,
        ← powMod_eq 96557 2 48278 256 (by decide)]
      decide
    · rw [show (96557 - 1) / 101 = 956 from by decide,
        ← powMod_eq 96557 2 956 256 (by decide)]
      decide
    · rw [show (96557 - 1) / 239 = 404 from by decide,
        ← powMod_eq 96557 2 404 256 (by decide)]
      decide

set_option maxRecDepth 100000 in
/-- Pratt-certificate node: `1206781` is prime (base 10). -/
theorem prime_c21 : Nat.Prime 1206781 := by
  refine pratt_step 1206781 10 [2, 3, 5, 20113] ?_ ?_ ?_
  · have hfact : 1206781 - 1 = 2 ^ 2 * (3 ^ 1 * (5 ^ 1 * (20113 ^ 1))) := by decide
    intro q hq hdvd
    rw [hfact] at hdvd
    rcases (Nat.Prime.dvd_mul hq).mp hdvd with h | hdvd
    · have hd := Nat.Prime.dvd_of_dvd_pow hq h
      have heq := (Nat.prime_dvd_prime_iff_eq hq (by norm_num)).mp hd
      subst heq
      decide
    rcases (Nat.Prime.dvd_mul hq).mp hdvd with h | hdvd
    · have hd := Nat.Prime.dvd_of_dvd_pow hq h
      have heq := (Nat.prime_dvd_prime_iff_eq hq (by norm_num)).mp hd
      subst heq
      decide
    rcases (Nat.Prime.dvd_mul hq).mp hdvd with h | hdvd
    · have hd := Nat.Prime.dvd_of_dvd_pow hq h
      have heq := (Nat.prime_dvd_prime_iff_eq hq (by norm_num)).mp hd
      subst heq
      decide
    · have hd := Nat.Prime.dvd_of_dvd_pow hq hdvd
      have heq := (Nat.prime_dvd_prime_iff_eq hq prime_c17).mp hd
      subst heq
      decide
  · rw [show (1206781 - 1 : Nat) = 1206780 from by decide,
      ← powMod_eq 1206781 10 1206780 256 (by decide)]
    decide
  · intro q hq
    simp only [List.mem_cons, List.not_mem_nil, or_false] at hq
    rcases hq with rfl | rfl | rfl | rfl
    · rw [show (1206781 - 1) / 2 = 603390 from by decide,
        ← powMod_eq 1206781 10 603390 256 (by decide)]
      decide
    · rw [show (1206781 - 1) / 3 = 402260 from by decide,
        ← powMod_eq 1206781 10 402260 256 (by decide)]
      decide
    · rw [show (1206781 - 1) / 5 = 241356 from by decide,
        ← powMod_eq 1206781 10 241356 256 (by decide)]
      decide
    · rw [show (1206781 - 1) / 20113 = 60 from by decide,
        ← powMod_eq 1206781 10 60 256 (by decide)]
      decide

set_option maxRecDepth 100000 in
/-- Pratt-certificate node: `7240687` is prime (base 3). -/
theorem prime_c22 : Nat.Prime 7240687 := by
  refine pratt_step 7240687 3 [2, 3, 1206781] ?_ ?_ ?_
  · have hfact : 7240687 - 1 = 2 ^ 1 * (3 ^ 1 * (1206781 ^ 1)) := by decide
    intro q hq hdvd
    rw [hfact] at hdvd
    rcases (Nat.Prime.dvd_mul hq).mp hdvd with h | hdvd
    · have hd := Nat.Prime.dvd_of_dvd_pow hq h
      have heq := (Nat.prime_dvd_prime_iff_eq hq (by norm_num)).mp hd
      subst heq
      decide
    rcases (Nat.Prime.dvd_mul hq).mp hdvd with h | hdvd
    · have hd := Nat.Prime.dvd_of_dvd_pow hq h
      have heq := (Nat.prime_dvd_prime_iff_eq hq (by norm_num)).mp hd
      subst heq
      decide
    · have hd := Nat.Prime.dvd_of_dvd_pow hq hdvd
      have heq := (Nat.prime_dvd_prime_iff_eq hq prime_c21).mp hd
      subst heq
      decide
  · rw [show (7240687 - 1 : Nat) = 7240686 from by decide,
      ← powMod_eq 7240687 3 7240686 256 (by decide)]
    decide
  · intro q hq
    simp only [List.mem_cons, List.not_mem_nil, or_false] at hq
    rcases hq with rfl | rfl | rfl
    · rw [show (7240687 - 1) / 2 = 3620343 from by decide,
        ← powMod_eq 7240687 3 3620343 256 (by decide)]
      decide
    · rw [show (7240687 - 1) / 3 = 2413562 from by decide,
        ← powMod_eq 7240687 3 2413562 256 (by decide)]
      decide
    · rw [show (7240687 - 1) / 1206781 = 6 from by decide,
        ← powMod_eq 7240687 3 6 256 (by decide)]
      decide

set_option maxRecDepth 100000 in
/-- Pratt-certificate node: `13331831` is prime (base 13). -/
theorem prime_c23 : Nat.Prime 13331831 := by
  refine pratt_step 13331831 13 [2, 5, 971, 1373] ?_ ?_ ?_
  · have hfact : 13331831 - 1 = 2 ^ 1 * (5 ^ 1 * (971 ^ 1 * (1373 ^ 1))) := by decide
    intro q hq hdvd
    rw [hfact] at hdvd
    rcases (Nat.Prime.dvd_mul hq).mp hdvd with h | hdvd
    · have hd := Nat.Prime.dvd_of_dvd_pow hq h
      have heq := (Nat.prime_dvd_prime_iff_eq hq (by norm_num)).mp hd
      subst heq
      decide
    rcases (Nat.Prime.dvd_mul hq).mp hdvd with h | hdvd
    · have hd := Nat.Prime.dvd_of_dvd_pow hq h
      have heq := (Nat.prime_dvd_prime_iff_eq hq (by norm_num)).mp hd
      subst heq
      decide
    rcases (Nat.Prime.dvd_mul hq).mp hdvd with h | hdvd
    · have hd := Nat.Prime.dvd_of_dvd_pow hq h
      have heq := (Nat.prime_dvd_prime_iff_eq hq prime_c8).mp hd
      subst heq
      decide
    · have hd := Nat.Prime.dvd_of_dvd_pow hq hdvd
      have heq := (Nat.prime_dvd_prime_iff_eq hq prime_c9).mp hd
      subst heq
      decide
  · rw [show (13331831 - 1 : Nat) = 13331830 from by decide,
      ← powMod_eq 13331831 13 13331830 256 (by decide)]
    decide
  · intro q hq
    simp only [List.mem_cons, List.not_mem_nil, or_false] at hq
    rcases hq with rfl | rfl | rfl | rfl
    · rw [show (13331831 - 1) / 2 = 6665915 from by decide,
        ← powMod_eq 13331831 13 6665915 256 (by decide)]
      decide
    · rw [show (13331831 - 1) / 5 = 2666366 from by decide,
        ← powMod_eq 13331831 13 2666366 256 (by decide)]
      decide
    · rw [show (13331831 - 1) / 971 = 13730 from by decide,
        ← powMod_eq 13331831 13 13730 256 (by decide)]
      decide
    · rw [show (13331831 - 1) / 1373 = 9710 from by decide,
        ← powMod_eq 13331831 13 9710 256 (by decide)]
      decide

set_option maxRecDepth 100000 in
/-- Pratt-certificate node: `107590001` is prime (base 3). -/
theorem prime_c24 : Nat.Prime 107590001 := by
  refine pratt_step 107590001 3 [2, 5, 7, 29, 53] ?_ ?_ ?_
  · have hfact : 107590001 - 1 = 2 ^ 4 * (5 ^ 4 * (7 ^ 1 * (29 ^ 1 * (53 ^ 1)))) := by decide
    intro q hq hdvd
    rw [hfact] at hdvd
    rcases (Nat.Prime.dvd_mul hq).mp hdvd with h | hdvd
    · have hd := Nat.Prime.dvd_of_dvd_pow hq h
      have heq := (Nat.prime_dvd_prime_iff_eq hq (by norm_num)).mp hd
      subst heq
      decide
    rcases (Nat.Prime.dvd_mul hq).mp hdvd with h | hdvd
    · have hd := Nat.Prime.dvd_of_dvd_pow hq h
      have heq := (Nat.prime_dvd_prime_iff_eq hq (by norm_num)).mp hd
      subst heq
      decide
    rcases (Nat.Prime.dvd_mul hq).mp hdvd with h | hdvd
    · have hd := Nat.Prime.dvd_of_dvd_pow hq h
      have heq := (Nat.prime_dvd_prime_iff_eq hq (by norm_num)).mp hd
      subst heq
      decide
    rcases (Nat.Prime.dvd_mul hq).mp hdvd with h | hdvd
    · have hd := Nat.Prime.dvd_of_dvd_pow hq h
      have heq := (Nat.prime_dvd_prime_iff_eq hq (by norm_num)).mp hd
      subst heq
      decide
    · have hd := Nat.Prime.dvd_of_dvd_pow hq hdvd
      have heq := (Nat.prime_dvd_prime_iff_eq hq (by norm_num)).mp hd
      subst heq
      decide
  · rw [show (107590001 - 1 : Nat) = 107590000 from by decide,
      ← powMod_eq 107590001 3 107590000 256 (by decide)]
    decide
  · intro q hq
    simp only [List.mem_cons, List.not_mem_nil, or_false] at hq
    rcases hq with rfl | rfl | rfl | rfl | rfl
    · rw [show (107590001 - 1) / 2 = 53795000 from by decide,
        ← powMod_eq 107590001 3 53795000 256 (by decide)]
      decide
    · rw [show (107590001 - 1) / 5 = 21518000 from by decide,
        ← powMod_eq 107590001 3 21518000 256 (by decide)]
      decide
    · rw [show (107590001 - 1) / 7 = 15370000 from by decide,
        ← powMod_eq 107590001 3 15370000 256 (by decide)]
      decide
    · rw [show (107590001 - 1) / 29 = 3710000 from by decide,
        ← powMod_eq 107590001 3 3710000 256 (by decide)]
      decide
    · rw [show (107590001 - 1) / 53 = 2030000 from by decide,
        ← powMod_eq 107590001 3 2030000 256 (by decide)]
      decide

set_option maxRecDepth 100000 in
/-- Pratt-certificate node: `173378833005251801` is prime (base 6). -/
theorem prime_c25 : Nat.Prime 173378833005251801 := by
  refine pratt_step 173378833005251801 6 [2, 5, 2621, 24809, 13331831] ?_ ?_ ?_
  · have hfact : 173378833005251801 - 1 = 2 ^ 3 * (5 ^ 2 * (2621 ^ 1 * (24809 ^ 1 * (13331831 ^ 1)))) := by decide
    intro q hq hdvd
    rw [hfact] at hdvd
    rcases (Nat.Prime.dvd_mul hq).mp hdvd with h | hdvd
    · have hd := Nat.Prime.dvd_of_dvd_pow hq h
      have heq := (Nat.prime_dvd_prime_iff_eq hq (by norm_num)).mp hd
      subst heq
      decide
    rcases (Nat.Prime.dvd_mul hq).mp hdvd with h | hdvd
    · have hd := Nat.Prime.dvd_of_dvd_pow hq h
      have heq := (Nat.prime_dvd_prime_iff_eq hq (by norm_num)).mp hd
      subst heq
      decide
    rcases (Nat.Prime.dvd_mul hq).mp hdvd with h | hdvd
    · have hd := Nat.Prime.dvd_of_dvd_pow hq h
      have heq := (Nat.prime_dvd_prime_iff_eq hq prime_c11).mp hd
      subst heq
      decide
    rcases (Nat.Prime.dvd_mul hq).mp hdvd with h | hdvd
    · have hd := Nat.Prime.dvd_of_dvd_pow hq h
      have heq := (Nat.prime_dvd_prime_iff_eq hq prime_c18).mp hd
      subst heq
      decide
    · have hd := Nat.Prime.dvd_of_dvd_pow hq hdvd
      have heq := (Nat.prime_dvd_prime_iff_eq hq prime_c23).mp hd
      subst heq
      decide
  · rw [show (173378833005251801 - 1 : Nat) = 173378833005251800 from by decide,
      ← powMod_eq 173378833005251801 6 173378833005251800 256 (by decide)]
    decide
  · intro q hq
    simp only [List.mem_cons, List.not_mem_nil, or_false] at hq
    rcases hq with rfl | rfl | rfl | rfl | rfl
    · rw [show (173378833005251801 - 1) / 2 = 86689416502625900 from by decide,
        ← powMod_eq 173378833005251801 6 86689416502625900 256 (by decide)]
      decide
    · rw [show (173378833005251801 - 1) / 5 = 34675766601050360 from by decide,
        ← powMod_eq 173378833005251801 6 34675766601050360 256 (by decide)]
      decide
    · rw [show (173378833005251801 - 1) / 2621 = 66149879055800 from by decide,
        ← powMod_eq 173378833005251801 6 66149879055800 256 (by decide)]
      decide
    · rw [show (173378833005251801 - 1) / 24809 = 6988545810200 from by decide,
        ← powMod_eq 173378833005251801 6 6988545810200 256 (by decide)]
      decide
    · rw [show (173378833005251801 - 1) / 13331831 = 13004877800 from by decide,
        ← powMod_eq 173378833005251801 6 13004877800 256 (by decide)]
      decide

set_option maxRecDepth 100000 in
/-- Pratt-certificate node: `22149492674086928081353` is prime (base 5). -/
theorem prime_c26 : Nat.Prime 22149492674086928081353 := by
  refine pratt_step 22149492674086928081353 5 [2, 3, 5323, 173378833005251801] ?_ ?_ ?_
  · have hfact : 22149492674086928081353 - 1 = 2 ^ 3 * (3 ^ 1 * (5323 ^ 1 * (173378833005251801 ^ 1))) := by decide
    intro q hq hdvd
    rw [hfact] at hdvd
    rcases (Nat.Prime.dvd_mul hq).mp hdvd with h | hdvd
    · have hd := Nat.Prime.dvd_of_dvd_pow hq h
      have heq := (Nat.prime_dvd_prime_iff_eq hq (by norm_num)).mp hd
      subst heq
      decide
    rcases (Nat.Prime.dvd_mul hq).mp hdvd with h | hdvd
    · have hd := Nat.Prime.dvd_of_dvd_pow hq h
      have heq := (Nat.prime_dvd_prime_iff_eq hq (by norm_num)).mp hd
      subst heq
      decide
    rcases (Nat.Prime.dvd_mul hq).mp hdvd with h | hdvd
    · have hd := Nat.Prime.dvd_of_dvd_pow hq h
      have heq := (Nat.prime_dvd_prime_iff_eq hq prime_c14).mp hd
      subst heq
      decide
    · have hd := Nat.Prime.dvd_of_dvd_pow hq hdvd
      have heq := (Nat.prime_dvd_prime_iff_eq hq prime_c25).mp hd
      subst heq
      decide
  · rw [show (22149492674086928081353 - 1 : Nat) = 22149492674086928081352 from by decide,
      ← powMod_eq 22149492674086928081353 5 22149492674086928081352 256 (by decide)]
    decide
  · intro q hq
    simp only [List.mem_cons, List.not_mem_nil, or_false] at hq
    rcases hq with rfl | rfl | rfl | rfl
    · rw [show (22149492674086928081353 - 1) / 2 = 11074746337043464040676 from by decide,
        ← powMod_eq 22149492674086928081353 5 11074746337043464040676 256 (by decide)]
      decide
    · rw [show (22149492674086928081353 - 1) / 3 = 7383164224695642693784 from by decide,
        ← powMod_eq 22149492674086928081353 5 7383164224695642693784 256 (by decide)]
      decide
    · rw [show (22149492674086928081353 - 1) / 5323 = 4161091992126043224 from by decide,
        ← powMod_eq 22149492674086928081353 5 4161091992126043224 256 (by decide)]
      decide
    · rw [show (22149492674086928081353 - 1) / 173378833005251801 = 127752 from by decide,
        ← powMod_eq 22149492674086928081353 5 127752 256 (by decide)]
      decide

set_option maxRecDepth 100000 in
/-- Pratt-certificate node: `132896956044521568488119` is prime (base 6). -/
theorem prime_c27 : Nat.Prime 132896956044521568488119 := by
  refine pratt_step 132896956044521568488119 6 [2, 3, 22149492674086928081353] ?_ ?_ ?_
  · have hfact : 132896956044521568488119 - 1 = 2 ^ 1 * (3 ^ 1 * (22149492674086928081353 ^ 1)) := by decide
    intro q hq hdvd
    rw [hfact] at hdvd
    rcases (Nat.Prime.dvd_mul hq).mp hdvd with h | hdvd
    · have hd := Nat.Prime.dvd_of_dvd_pow hq h
      have heq := (Nat.prime_dvd_prime_iff_eq hq (by norm_num)).mp hd
      subst heq
      decide
    rcases (Nat.Prime.dvd_mul hq).mp hdvd with h | hdvd
    · have hd := Nat.Prime.dvd_of_dvd_pow hq h
      have heq := (Nat.prime_dvd_prime_iff_eq hq (by norm_num)).mp hd
      subst heq
      decide
    · have hd := Nat.Prime.dvd_of_dvd_pow hq hdvd
      have heq := (Nat.prime_dvd_prime_iff_eq hq prime_c26).mp hd
      subst heq
      decide
  · rw [show (132896956044521568488119 - 1 : Nat) = 132896956044521568488118 from by decide,
      ← powMod_eq 132896956044521568488119 6 132896956044521568488118 256 (by decide)]
    decide
  · intro q hq
    simp only [List.mem_cons, List.not_mem_nil, or_false] at hq
    rcases hq with rfl | rfl | rfl
    · rw [show (132896956044521568488119 - 1) / 2 = 66448478022260784244059 from by decide,
        ← powMod_eq 132896956044521568488119 6 66448478022260784244059 256 (by decide)]
      decide
    · rw [show (132896956044521568488119 - 1) / 3 = 44298985348173856162706 from by decide,
        ← powMod_eq 132896956044521568488119 6 44298985348173856162706 256 (by decide)]
      decide
    · rw [show (132896956044521568488119 - 1) / 22149492674086928081353 = 6 from by decide,
        ← powMod_eq 132896956044521568488119 6 6 256 (by decide)]
      decide

set_option maxRecDepth 100000 in
/-- Pratt-certificate node: `255515944373312847190720520512484175977` is prime (base 3). -/
theorem prime_c28 : Nat.Prime 255515944373312847190720520512484175977 := by
  refine pratt_step 255515944373312847190720520512484175977 3 [2, 7, 11, 1627, 2657, 4423, 41201, 96557, 7240687, 107590001] ?_ ?_ ?_
  · have hfact : 255515944373312847190720520512484175977 - 1 = 2 ^ 3 * (7 ^ 2 * (11 ^ 1 * (1627 ^ 1 * (2657 ^ 1 * (4423 ^ 1 * (41201 ^ 1 * (96557 ^ 1 * (7240687 ^ 1 * (107590001 ^ 1))))))))) := by decide
    intro q hq hdvd
    rw [hfact] at hdvd
    rcases (Nat.Prime.dvd_mul hq).mp hdvd with h | hdvd
    · have hd := Nat.Prime.dvd_of_dvd_pow hq h
      have heq := (Nat.prime_dvd_prime_iff_eq hq (by norm_num)).mp hd
      subst heq
      decide
    rcases (Nat.Prime.dvd_mul hq).mp hdvd with h | hdvd
    · have hd := Nat.Prime.dvd_of_dvd_pow hq h
      have heq := (Nat.prime_dvd_prime_iff_eq hq (by norm_num)).mp hd
      subst heq
      decide
    rcases (Nat.Prime.dvd_mul hq).mp hdvd with h | hdvd
    · have hd := Nat.Prime.dvd_of_dvd_pow hq h
      have heq := (Nat.prime_dvd_prime_iff_eq hq (by norm_num)).mp hd
      subst heq
      decide
    rcases (Nat.Prime.dvd_mul hq).mp hdvd with h | hdvd
    · have hd := Nat.Prime.dvd_of_dvd_pow hq h
      have heq := (Nat.prime_dvd_prime_iff_eq hq prime_c10).mp hd
      subst heq
      decide
    rcases (Nat.Prime.dvd_mul hq).mp hdvd with h | hdvd
    · have hd := Nat.Prime.dvd_of_dvd_pow hq h
      have heq := (Nat.prime_dvd_prime_iff_eq hq prime_c12).mp hd
      subst heq
      decide
    rcases (Nat.Prime.dvd_mul hq).mp hdvd with h | hdvd
    · have hd := Nat.Prime.dvd_of_dvd_pow hq h
      have heq := (Nat.prime_dvd_prime_iff_eq hq prime_c13).mp hd
      subst heq
      decide
    rcases (Nat.Prime.dvd_mul hq).mp hdvd with h | hdvd
    · have hd := Nat.Prime.dvd_of_dvd_pow hq h
      have heq := (Nat.prime_dvd_prime_iff_eq hq prime_c19).mp hd
      subst heq
      decide
    rcases (Nat.Prime.dvd_mul hq).mp hdvd with h | hdvd
    · have hd := Nat.Prime.dvd_of_dvd_pow hq h
      have heq := (Nat.prime_dvd_prime_iff_eq hq prime_c20).mp hd
      subst heq
      decide
    rcases (Nat.Prime.dvd_mul hq).mp hdvd with h | hdvd
    · have hd := Nat.Prime.dvd_of_dvd_pow hq h
      have heq := (Nat.prime_dvd_prime_iff_eq hq prime_c22).mp hd
      subst heq
      decide
    · have hd := Nat.Prime.dvd_of_dvd_pow hq hdvd
      have heq := (Nat.prime_dvd_prime_iff_eq hq prime_c24).mp hd
      subst heq
      decide
  · rw [show (255515944373312847190720520512484175977 - 1 : Nat) = 255515944373312847190720520512484175976 from by decide,
      ← powMod_eq 255515944373312847190720520512484175977 3 255515944373312847190720520512484175976 256 (by decide)]
    decide
  · intro q hq
    simp only [List.mem_cons, List.not_mem_nil, or_false] at hq
    rcases hq with rfl | rfl | rfl | rfl | rfl | rfl | rfl | rfl | rfl | rfl
    · rw [show (255515944373312847190720520512484175977 - 1) / 2 = 127757972186656423595360260256242087988 from by decide,
        ← powMod_eq 255515944373312847190720520512484175977 3 127757972186656423595360260256242087988 256 (by decide)]
      decide
    · rw [show (255515944373312847190720520512484175977 - 1) / 7 = 36502277767616121027245788644640596568 from by decide,
        ← powMod_eq 255515944373312847190720520512484175977 3 36502277767616121027245788644640596568 256 (by decide)]
      decide
    · rw [show (255515944373312847190720520512484175977 - 1) / 11 = 23228722215755713380974592773862197816 from by decide,
        ← powMod_eq 255515944373312847190720520512484175977 3 23228722215755713380974592773862197816 256 (by decide)]
      decide
    · rw [show (255515944373312847190720520512484175977 - 1) / 1627 = 157047292177819820031174259688066488 from by decide,
        ← powMod_eq 255515944373312847190720520512484175977 3 157047292177819820031174259688066488 256 (by decide)]
      decide
    · rw [show (255515944373312847190720520512484175977 - 1) / 2657 = 96167084822473785167753300907972968 from by decide,
        ← powMod_eq 255515944373312847190720520512484175977 3 96167084822473785167753300907972968 256 (by decide)]
      decide
    · rw [show (255515944373312847190720520512484175977 - 1) / 4423 = 57769826898782013834664372713652312 from by decide,
        ← powMod_eq 255515944373312847190720520512484175977 3 57769826898782013834664372713652312 256 (by decide)]
      decide
    · rw [show (255515944373312847190720520512484175977 - 1) / 41201 = 6201692783507993669831327407404776 from by decide,
        ← powMod_eq 255515944373312847190720520512484175977 3 6201692783507993669831327407404776 256 (by decide)]
      decide
    · rw [show (255515944373312847190720520512484175977 - 1) / 96557 = 2646270538369179315748423423599368 from by decide,
        ← powMod_eq 255515944373312847190720520512484175977 3 2646270538369179315748423423599368 256 (by decide)]
      decide
    · rw [show (255515944373312847190720520512484175977 - 1) / 7240687 = 35288908963101546467996824129048 from by decide,
        ← powMod_eq 255515944373312847190720520512484175977 3 35288908963101546467996824129048 256 (by decide)]
      decide
    · rw [show (255515944373312847190720520512484175977 - 1) / 107590001 = 2374904191824599455024826335976 from by decide,
        ← powMod_eq 255515944373312847190720520512484175977 3 2374904191824599455024826335976 256 (by decide)]
      decide

set_option maxRecDepth 100000 in
/-- Pratt-certificate node: `205115282021455665897114700593932402728804164701536103180137503955397371` is prime (base 10). -/
theorem prime_c29 : Nat.Prime 205115282021455665897114700593932402728804164701536103180137503955397371 := by
  refine pratt_step 205115282021455665897114700593932402728804164701536103180137503955397371 10 [2, 3, 5, 29, 31, 7723, 132896956044521568488119, 255515944373312847190720520512484175977] ?_ ?_ ?_
  · have hfact : 205115282021455665897114700593932402728804164701536103180137503955397371 - 1 = 2 ^ 1 * (3 ^ 1 * (5 ^ 1 * (29 ^ 2 * (31 ^ 1 * (7723 ^ 1 * (132896956044521568488119 ^ 1 * (255515944373312847190720520512484175977 ^ 1))))))) := by decide
    intro q hq hdvd
    rw [hfact] at hdvd
    rcases (Nat.Prime.dvd_mul hq).mp hdvd with h | hdvd
    · have hd := Nat.Prime.dvd_of_dvd_pow hq h
      have heq := (Nat.prime_dvd_prime_iff_eq hq (by norm_num)).mp hd
      subst heq
      decide
    rcases (Nat.Prime.dvd_mul hq).mp hdvd with h | hdvd
    · have hd := Nat.Prime.dvd_of_dvd_pow hq h
      have heq := (Nat.prime_dvd_prime_iff_eq hq (by norm_num)).mp hd
      subst heq
      decide
    rcases (Nat.Prime.dvd_mul hq).mp hdvd with h | hdvd
    · have hd := Nat.Prime.dvd_of_dvd_pow hq h
      have heq := (Nat.prime_dvd_prime_iff_eq hq (by norm_num)).mp hd
      subst heq
      decide
    rcases (Nat.Prime.dvd_mul hq).mp hdvd with h | hdvd
    · have hd := Nat.Prime.dvd_of_dvd_pow hq h
      have heq := (Nat.prime_dvd_prime_iff_eq hq (by norm_num)).mp hd
      subst heq
      decide
    rcases (Nat.Prime.dvd_mul hq).mp hdvd with h | hdvd
    · have hd := Nat.Prime.dvd_of_dvd_pow hq h
      have heq := (Nat.prime_dvd_prime_iff_eq hq (by norm_num)).mp hd
      subst heq
      decide
    rcases (Nat.Prime.dvd_mul hq).mp hdvd with h | hdvd
    · have hd := Nat.Prime.dvd_of_dvd_pow hq h
      have heq := (Nat.prime_dvd_prime_iff_eq hq prime_c15).mp hd
      subst heq
      decide
    rcases (Nat.Prime.dvd_mul hq).mp hdvd with h | hdvd
    · have hd := Nat.Prime.dvd_of_dvd_pow hq h
      have heq := (Nat.prime_dvd_prime_iff_eq hq prime_c27).mp hd
      subst heq
      decide
    · have hd := Nat.Prime.dvd_of_dvd_pow hq hdvd
      have heq := (Nat.prime_dvd_prime_iff_eq hq prime_c28).mp hd
      subst heq
      decide
  · rw [show (205115282021455665897114700593932402728804164701536103180137503955397371 - 1 : Nat) = 205115282021455665897114700593932402728804164701536103180137503955397370 from by decide,
      ← powMod_eq 205115282021455665897114700593932402728804164701536103180137503955397371 10 205115282021455665897114700593932402728804164701536103180137503955397370 256 (by decide)]
    decide
  · intro q hq
    simp only [List.mem_cons, List.not_mem_nil, or_false] at hq
    rcases hq with rfl | rfl | rfl | rfl | rfl | rfl | rfl | rfl
    · rw [show (205115282021455665897114700593932402728804164701536103180137503955397371 - 1) / 2 = 102557641010727832948557350296966201364402082350768051590068751977698685 from by decide,
        ← powMod_eq 205115282021455665897114700593932402728804164701536103180137503955397371 10 102557641010727832948557350296966201364402082350768051590068751977698685 256 (by decide)]
      decide
    · rw [show (205115282021455665897114700593932402728804164701536103180137503955397371 - 1) / 3 = 68371760673818555299038233531310800909601388233845367726712501318465790 from by decide,
        ← powMod_eq 205115282021455665897114700593932402728804164701536103180137503955397371 10 68371760673818555299038233531310800909601388233845367726712501318465790 256 (by decide)]
      decide
    · rw [show (205115282021455665897114700593932402728804164701536103180137503955397371 - 1) / 5 = 41023056404291133179422940118786480545760832940307220636027500791079474 from by decide,
        ← powMod_eq 205115282021455665897114700593932402728804164701536103180137503955397371 10 41023056404291133179422940118786480545760832940307220636027500791079474 256 (by decide)]
      decide
    · rw [show (205115282021455665897114700593932402728804164701536103180137503955397371 - 1) / 29 = 7072940759360540203348782779101117335476005679363313902763362205358530 from by decide,
        ← powMod_eq 205115282021455665897114700593932402728804164701536103180137503955397371 10 7072940759360540203348782779101117335476005679363313902763362205358530 256 (by decide)]
      decide
    · rw [show (205115282021455665897114700593932402728804164701536103180137503955397371 - 1) / 31 = 6616622000692118254745635503030077507380779506501164618714113030819270 from by decide,
        ← powMod_eq 205115282021455665897114700593932402728804164701536103180137503955397371 10 6616622000692118254745635503030077507380779506501164618714113030819270 256 (by decide)]
      decide
    · rw [show (205115282021455665897114700593932402728804164701536103180137503955397371 - 1) / 7723 = 26559016188198325248881872406310035313842310591937861346644762910190 from by decide,
        ← powMod_eq 205115282021455665897114700593932402728804164701536103180137503955397371 10 26559016188198325248881872406310035313842310591937861346644762910190 256 (by decide)]
      decide
    · rw [show (205115282021455665897114700593932402728804164701536103180137503955397371 - 1) / 132896956044521568488119 = 1543415952677955745309227852991199086604869270230 from by decide,
        ← powMod_eq 205115282021455665897114700593932402728804164701536103180137503955397371 10 1543415952677955745309227852991199086604869270230 256 (by decide)]
      decide
    · rw [show (205115282021455665897114700593932402728804164701536103180137503955397371 - 1) / 255515944373312847190720520512484175977 = 802749442992798076634733441528810 from by decide,
        ← powMod_eq 205115282021455665897114700593932402728804164701536103180137503955397371 10 802749442992798076634733441528810 256 (by decide)]
      decide

set_option maxRecDepth 100000 in
/-- Pratt-certificate node: `115792089237316195423570985008687907853269984665640564039457584007908834671663` is prime (base 3). -/
theorem prime_c30 : Nat.Prime 115792089237316195423570985008687907853269984665640564039457584007908834671663 := by
  refine pratt_step 115792089237316195423570985008687907853269984665640564039457584007908834671663 3 [2, 3, 7, 13441, 205115282021455665897114700593932402728804164701536103180137503955397371] ?_ ?_ ?_
  · have hfact : 115792089237316195423570985008687907853269984665640564039457584007908834671663 - 1 = 2 ^ 1 * (3 ^ 1 * (7 ^ 1 * (13441 ^ 1 * (205115282021455665897114700593932402728804164701536103180137503955397371 ^ 1)))) := by decide
    intro q hq hdvd
    rw [hfact] at hdvd
    rcases (Nat.Prime.dvd_mul hq).mp hdvd with h | hdvd
    · have hd := Nat.Prime.dvd_of_dvd_pow hq h
      have heq := (Nat.prime_dvd_prime_iff_eq hq (by norm_num)).mp hd
      subst heq
      decide
    rcases (Nat.Prime.dvd_mul hq).mp hdvd with h | hdvd
    · have hd := Nat.Prime.dvd_of_dvd_pow hq h
      have heq := (Nat.prime_dvd_prime_iff_eq hq (by norm_num)).mp hd
      subst heq
      decide
    rcases (Nat.Prime.dvd_mul hq).mp hdvd with h | hdvd
    · have hd := Nat.Prime.dvd_of_dvd_pow hq h
      have heq := (Nat.prime_dvd_prime_iff_eq hq (by norm_num)).mp hd
      subst heq
      decide
    rcases (Nat.Prime.dvd_mul hq).mp hdvd with h | hdvd
    · have hd := Nat.Prime.dvd_of_dvd_pow hq h
      have heq := (Nat.prime_dvd_prime_iff_eq hq prime_c16).mp hd
      subst heq
      decide
    · have hd := Nat.Prime.dvd_of_dvd_pow hq hdvd
      have heq := (Nat.prime_dvd_prime_iff_eq hq prime_c29).mp hd
      subst heq
      decide
  · rw [show (115792089237316195423570985008687907853269984665640564039457584007908834671663 - 1 : Nat) = 115792089237316195423570985008687907853269984665640564039457584007908834671662 from by decide,
      ← powMod_eq 115792089237316195423570985008687907853269984665640564039457584007908834671663 3 115792089237316195423570985008687907853269984665640564039457584007908834671662 256 (by decide)]
    decide
  · intro q hq
    simp only [List.mem_cons, List.not_mem_nil, or_false] at hq
    rcases hq with rfl | rfl | rfl | rfl | rfl
    · rw [show (115792089237316195423570985008687907853269984665640564039457584007908834671663 - 1) / 2 = 57896044618658097711785492504343953926634992332820282019728792003954417335831 from by decide,
        ← powMod_eq 115792089237316195423570985008687907853269984665640564039457584007908834671663 3 57896044618658097711785492504343953926634992332820282019728792003954417335831 256 (by decide)]
      decide
    · rw [show (115792089237316195423570985008687907853269984665640564039457584007908834671663 - 1) / 3 = 38597363079105398474523661669562635951089994888546854679819194669302944890554 from by decide,
        ← powMod_eq 115792089237316195423570985008687907853269984665640564039457584007908834671663 3 38597363079105398474523661669562635951089994888546854679819194669302944890554 256 (by decide)]
      decide
    · rw [show (115792089237316195423570985008687907853269984665640564039457584007908834671663 - 1) / 7 = 16541727033902313631938712144098272550467140666520080577065369143986976381666 from by decide,
        ← powMod_eq 115792089237316195423570985008687907853269984665640564039457584007908834671663 3 16541727033902313631938712144098272550467140666520080577065369143986976381666 256 (by decide)]
      decide
    · rw [show (115792089237316195423570985008687907853269984665640564039457584007908834671663 - 1) / 13441 = 8614841844901137967678817424945160914609774917464516333565775166126689582 from by decide,
        ← powMod_eq 115792089237316195423570985008687907853269984665640564039457584007908834671663 3 8614841844901137967678817424945160914609774917464516333565775166126689582 256 (by decide)]
      decide
    · rw [show (115792089237316195423570985008687907853269984665640564039457584007908834671663 - 1) / 205115282021455665897114700593932402728804164701536103180137503955397371 = 564522 from by decide,
        ← powMod_eq 115792089237316195423570985008687907853269984665640564039457584007908834671663 3 564522 256 (by decide)]
      decide

/-- The field modulus p is prime. -/
theorem P_prime : Nat.Prime P := by
  unfold P
  exact prime_c30

/-- C8 (amended): for elements with 64-bit limbs (which the Go `uint64`
representation guarantees), `Element.Select` returns `a` when `cond = 1`
and `b` when `cond = 0`, limb by limb through `cmovznz`.  Conditions
outside `{0, 1}` are outside `cmovznz`'s input bounds and are not
selected correctly. -/
theorem elemSelect_correct (a b : Element) (ha : Bounded a) (hb : Bounded b) :
    elemSelect a b 1 = a ∧ elemSelect a b 0 = b := by
  obtain ⟨ha0, ha1, ha2, ha3⟩ := ha
  obtain ⟨hb0, hb1, hb2, hb3⟩ := hb
  refine ⟨?_, ?_⟩
  · show Element.mk (cmovznz 1 b.l0 a.l0) (cmovznz 1 b.l1 a.l1)
      (cmovznz 1 b.l2 a.l2) (cmovznz 1 b.l3 a.l3) = a
    rw [cmovznz_one _ _ ha0, cmovznz_one _ _ ha1, cmovznz_one _ _ ha2,
      cmovznz_one _ _ ha3]
  · show Element.mk (cmovznz 0 b.l0 a.l0) (cmovznz 0 b.l1 a.l1)
      (cmovznz 0 b.l2 a.l2) (cmovznz 0 b.l3 a.l3) = b
    rw [cmovznz_zero _ _ hb0, cmovznz_zero _ _ hb1, cmovznz_zero _ _ hb2,
      cmovznz_zero _ _ hb3]

/-- Witness for C8's amended theorem at concrete bounded elements. -/
theorem elemSelect_correct_witness :
    elemSelect ⟨3, 4, 5, 6⟩ ⟨7, 8, 9, 10⟩ 1 = ⟨3, 4, 5, 6⟩ ∧
    elemSelect ⟨3, 4, 5, 6⟩ ⟨7, 8, 9, 10⟩ 0 = ⟨7, 8, 9, 10⟩ :=
  elemSelect_correct ⟨3, 4, 5, 6⟩ ⟨7, 8, 9, 10⟩
    ⟨by decide, by decide, by decide, by decide⟩
    ⟨by decide, by decide, by decide, by decide⟩

/-- C8 counterexample: the claim's clause that every nonzero `cond`
selects `a` is false.  At `cond = 2` the mask `2 * 2^64 - 2 mod 2^64`
is not all-ones, so `select(⟨1,0,0,0⟩, 0, 2)` returns `0`, not `a`. -/
theorem elemSelect_nonzero_counterexample :
    ¬ (∀ (a b : Element) (cond : Nat), cond ≠ 0 → elemSelect a b cond = a) :=
  fun h => absurd (h ⟨1, 0, 0, 0⟩ elemZero 2 (by decide)) (by decide)

end Secp
